import Mathlib

/-!
# FLUIDOS node: local resource manager

A shallow embedding of the Go sources

* `pkg/local-resource-manager/node_services.go` (`GetNodeInfos`, `forgeResourceMetrics`,
  `forgeNodeInfo`),
* `pkg/local-resource-manager/node_controller.go` (`Reconcile`, `createOrUpdateFlavor`),
* `pkg/utils/models/local-resource-manager.go` (`NodeInfo`, `ResourceMetrics`, `GPUMetrics`),
* `pkg/utils/models/flavor-k8slice-models.go` (`GpuCharacteristics`),
* `pkg/utils/parseutil` (`ToNodeCoreGPU`, `ToGpuCharacteristics`),
* `pkg/indexer/flavor_by_node_name.go` (`FlavorByNodeName.Field`),

followed by the properties proved about them.

Conventions of the embedding.

* A Go call either returns normally, returns a non-nil `error`, or panics; the three cases are
  the constructors of `Result`.
* Pointers that the code only reads through become values, `nil`-able pointers become `Option`.
* A Go `map[string]string` is a finite partial function `String → Option String`.
* Functions of libraries outside the repository whose behaviour is documented and small
  (`strconv.ParseInt`, `strconv.Atoi`, `strconv.ParseBool`, `controllerutil.SetOwnerReference`)
  are transcribed; the others (`resource.ParseQuantity`, `strconv.ParseFloat`, `json.Marshal`,
  `json.Unmarshal`, `controllerutil.CreateOrUpdate`, the reads of the API client) are
  parameters, and so are the functions and constants of the repository that are not among the
  sources (`flags`, `getters.GetNodeIdentity`, `namings.ForgeFlavorName`,
  `parseutil.ParseQuantityFromString`).
* `int` has 64 bits.
-/

namespace Fluidos

/-! ## Results of Go calls -/

/-- A Go `error` value, kept as its message. -/
abbrev Error := String

/-- Outcome of a Go call: a normal return, a returned non-nil error, or a panic that unwinds
through the caller (nothing is returned). -/
inductive Result (α : Type) where
  | ok (v : α)
  | error (e : Error)
  | panic (msg : String)
  deriving DecidableEq, Repr

namespace Result

/-- Sequencing: an error or a panic of the first call ends the computation. -/
def bind {α β : Type} (x : Result α) (f : α → Result β) : Result β :=
  match x with
  | ok v => f v
  | error e => error e
  | panic m => panic m

instance : Monad Result where
  pure := Result.ok
  bind := Result.bind

/-- The call returned normally (at least one value, `err == nil`). -/
def isOk {α : Type} : Result α → Bool
  | ok _ => true
  | _ => false

/-- The call returned a non-nil error. -/
def isError {α : Type} : Result α → Bool
  | error _ => true
  | _ => false

/-- The call did not return: it panicked. -/
def isPanic {α : Type} : Result α → Bool
  | panic _ => true
  | _ => false

end Result

/-! ## Library values -/

/-- Model of `resource.Quantity` (k8s.io/apimachinery): the exact decimal amount it denotes.
The library's `Add` and `Sub` are exact (they fall back to arbitrary-precision decimals on
overflow), so the amount is an unbounded integer counted in the finest unit the quantity
syntax admits (one nano, i.e. 10⁻⁹ of the base unit). The display format is not modelled. -/
structure Quantity where
  value : Int := 0
  deriving DecidableEq, Repr, Inhabited

namespace Quantity

/-- The call `q.Add(y)`. -/
def Add (q y : Quantity) : Quantity := ⟨q.value + y.value⟩

/-- The call `q.Sub(y)`. -/
def Sub (q y : Quantity) : Quantity := ⟨q.value - y.value⟩

/-- The value `*resource.NewQuantity(0, resource.BinarySI)`. -/
def zero : Quantity := ⟨0⟩

end Quantity

/-- A Go `float64`, kept as its IEEE-754 bit pattern; the code only stores such values.
The zero value is `+0.0`. -/
structure Float64 where
  bits : Nat := 0
  deriving DecidableEq, Repr, Inhabited

/-- A Go `[]byte`. -/
abbrev Bytes := List UInt8

/-! ## `strconv` -/

/-- The two error kinds of `strconv.NumError`. -/
inductive NumError where
  | ErrSyntax
  | ErrRange
  deriving DecidableEq, Repr

/-- The constant `1<<64 - 1`. -/
def maxUint64 : Nat := 2 ^ 64 - 1

/-- The digit loop of `strconv.ParseUint(s, 10, 64)`: `n` is the value accumulated so far.
An invalid digit gives `(0, ErrSyntax)`; an overflow gives `(maxUint64, ErrRange)` at once,
before the remaining characters are looked at. -/
def parseUintLoop : List Char → Nat → Nat × Option NumError
  | [], n => (n, none)
  | c :: cs, n =>
    if '0' ≤ c ∧ c ≤ '9' then
      if n ≥ maxUint64 / 10 + 1 then (maxUint64, some .ErrRange)
      else
        let n1 := n * 10 + (c.toNat - '0'.toNat)
        if n1 > maxUint64 then (maxUint64, some .ErrRange)
        else parseUintLoop cs n1
    else (0, some .ErrSyntax)

/-- The call `strconv.ParseUint(s, 10, 64)` on the characters of `s`. -/
def ParseUint (s : List Char) : Nat × Option NumError :=
  match s with
  | [] => (0, some .ErrSyntax)
  | _ => parseUintLoop s 0

/-- The call `strconv.ParseInt(s, 10, 64)`: the returned value and error. On a syntax error
the value is 0; on a range error it is the integer of largest magnitude with the sign of the
input. -/
def ParseInt (s : String) : Int × Option NumError :=
  match s.toList with
  | [] => (0, some .ErrSyntax)
  | c :: cs =>
    let neg := c == '-'
    let digits := if c == '+' ∨ c == '-' then cs else c :: cs
    match ParseUint digits with
    | (_, some .ErrSyntax) => (0, some .ErrSyntax)
    | (un, _) =>
      if ¬ neg ∧ un ≥ 2 ^ 63 then ((2 : Int) ^ 63 - 1, some .ErrRange)
      else if neg ∧ un > 2 ^ 63 then (-(2 : Int) ^ 63, some .ErrRange)
      else (if neg then -(un : Int) else (un : Int), none)

/-- The call `strconv.Atoi(s)` where `int` has 64 bits: the same value and error as
`ParseInt(s, 10, 0)`. -/
def Atoi (s : String) : Int × Option NumError := ParseInt s

/-- The call `strconv.ParseBool(s)`. -/
def ParseBool (s : String) : Bool × Option NumError :=
  if s = "1" ∨ s = "t" ∨ s = "T" ∨ s = "TRUE" ∨ s = "true" ∨ s = "True" then (true, none)
  else if s = "0" ∨ s = "f" ∨ s = "F" ∨ s = "FALSE" ∨ s = "false" ∨ s = "False" then (false, none)
  else (false, some .ErrSyntax)

/-! ## Data model (`pkg/utils/models/local-resource-manager.go`) -/

/-- The struct `models.GPUSharingMetrics`. -/
structure GPUSharingMetrics where
  MultiInstance : Bool := false
  Shared : Bool := false
  SharingStrategy : String := ""
  Dedicated : Bool := false
  Interruptible : Bool := false
  deriving DecidableEq, Repr

/-- The struct `models.GPUNetworkMetrics`. -/
structure GPUNetworkMetrics where
  NetworkBandwidth : Quantity := {}
  NetworkLatencyMs : Int := 0
  NetworkTier : String := ""
  deriving DecidableEq, Repr

/-- The struct `models.GPUScoreMetrics`. -/
structure GPUScoreMetrics where
  TrainingScore : Float64 := {}
  InferenceScore : Float64 := {}
  HPCScore : Float64 := {}
  GraphicsScore : Float64 := {}
  deriving DecidableEq, Repr

/-- The struct `models.GPUSpecMetrics`. -/
structure GPUSpecMetrics where
  Architecture : String := ""
  Interconnect : String := ""
  InterconnectBandwidth : Quantity := {}
  CoresTotal : Quantity := {}
  ComputeCapability : String := ""
  ClockSpeed : Quantity := {}
  FP32TFlops : Float64 := {}
  Topology : String := ""
  MultiGPUEfficiency : String := ""
  deriving DecidableEq, Repr

/-- The struct `models.GPURentingMetrics`. -/
structure GPURentingMetrics where
  Region : String := ""
  Zone : String := ""
  HourlyRate : Float64 := {}
  deriving DecidableEq, Repr

/-- The struct `models.GPUProviderMetrics`. -/
structure GPUProviderMetrics where
  Provider : String := ""
  PreEmptible : Bool := false
  deriving DecidableEq, Repr

/-- The struct `models.GPUMetrics`; the six embedded structs are parents, so that their fields
are promoted as in Go. The field written `gpuMetrics.Count` by `forgeResourceMetrics` (declared
with the JSON name `total_count`) is `Count`. Every field defaults to its Go zero value. -/
@[ext]
structure GPUMetrics extends GPUSharingMetrics, GPUNetworkMetrics, GPUScoreMetrics,
    GPUSpecMetrics, GPURentingMetrics, GPUProviderMetrics where
  Vendor : String := ""
  Model : String := ""
  Count : Int := 0
  MemoryTotal : Quantity := {}
  Tier : String := ""
  CoresAvailable : Quantity := {}
  MemoryAvailable : Quantity := {}
  CountAvailable : Int := 0
  deriving DecidableEq, Repr

/-- The struct `models.ResourceMetrics`. -/
structure ResourceMetrics where
  CPUTotal : Quantity := {}
  CPUAvailable : Quantity := {}
  MemoryTotal : Quantity := {}
  MemoryAvailable : Quantity := {}
  PodsTotal : Quantity := {}
  PodsAvailable : Quantity := {}
  EphemeralStorage : Quantity := {}
  GPU : GPUMetrics := {}
  deriving DecidableEq, Repr

/-- The struct `models.NodeInfo`. -/
structure NodeInfo where
  UID : String := ""
  Name : String := ""
  Architecture : String := ""
  OperatingSystem : String := ""
  ResourceMetrics : ResourceMetrics := {}
  deriving DecidableEq, Repr

/-! ## Kubernetes objects read by the code -/

/-- A `corev1.ResourceList`, a map from resource name to quantity. -/
abbrev ResourceList := String → Option Quantity

namespace ResourceList

/-- The accessor `rl.Cpu()`: the entry `cpu`, or a zero quantity. -/
def Cpu (rl : ResourceList) : Quantity := (rl "cpu").getD {}

/-- The accessor `rl.Memory()`: the entry `memory`, or a zero quantity. -/
def Memory (rl : ResourceList) : Quantity := (rl "memory").getD {}

/-- The accessor `rl.Pods()`: the entry `pods`, or a zero quantity. -/
def Pods (rl : ResourceList) : Quantity := (rl "pods").getD {}

/-- The accessor `rl.StorageEphemeral()`: the entry `ephemeral-storage`, or a zero quantity. -/
def StorageEphemeral (rl : ResourceList) : Quantity := (rl "ephemeral-storage").getD {}

end ResourceList

/-- The part `node.Status.NodeInfo` of a `corev1.Node` that the code reads. -/
structure NodeSystemInfo where
  Architecture : String := ""
  OperatingSystem : String := ""

/-- The part `node.Status` of a `corev1.Node` that the code reads. -/
structure NodeStatus where
  Allocatable : ResourceList := fun _ => none
  NodeInfo : NodeSystemInfo := {}

/-- The part of a `corev1.Node` that the code reads; `Labels` and `Annotations` are `nil`-able
maps. The default is the zero value `corev1.Node{}`. -/
structure Node where
  Name : String := ""
  UID : String := ""
  Labels : Option (String → Option String) := none
  Annotations : Option (String → Option String) := none
  Status : NodeStatus := {}

/-- The part of a `metricsv1beta1.NodeMetrics` that the code reads. -/
structure NodeMetrics where
  Name : String := ""
  Usage : ResourceList := fun _ => none

/-- The parsers of node annotations that are taken as given:
`resource.ParseQuantity` and `strconv.ParseFloat(·, 64)` (value and error, as returned). -/
structure Parsers where
  ParseQuantity : String → Except Error Quantity
  ParseFloat : String → Float64 × Option NumError

/-- The call `resource.MustParse(v)`: the parsed quantity, or a panic when
`resource.ParseQuantity` fails. -/
def MustParse (lib : Parsers) (v : String) : Result Quantity :=
  match lib.ParseQuantity v with
  | .ok q => .ok q
  | .error e => .panic e

/-- The loop `for range count { computed.Add(qty) }`: the body runs `count` times, and not at
all when `count` is zero or negative. -/
def addRepeated (count : Int) (qty computed : Quantity) : Quantity :=
  Nat.iterate (fun c => c.Add qty) count.toNat computed

/-! ## `pkg/local-resource-manager/node_services.go` -/

/-- The statement `if v, found := annotations[key]; found { assign }`, where the body only
assigns to `gpuMetrics`: the body as a function of the value found and of the metrics so far. -/
def whenFound (annotations : String → Option String) (key : String)
    (assign : String → GPUMetrics → GPUMetrics) (gpuMetrics : GPUMetrics) : GPUMetrics :=
  match annotations key with
  | some v => assign v gpuMetrics
  | none => gpuMetrics

/-- The statement `if v, found := annotations[key]; found { qty := resource.MustParse(v); assign }`:
as `whenFound`, with a body that first parses the value found as a quantity and panics when
that fails. -/
def whenFoundMustParse (lib : Parsers) (annotations : String → Option String) (key : String)
    (assign : Quantity → GPUMetrics → GPUMetrics) (gpuMetrics : GPUMetrics) : Result GPUMetrics :=
  match annotations key with
  | some v => do
    let qty ← MustParse lib v
    pure (assign qty gpuMetrics)
  | none => pure gpuMetrics

/-- The function `forgeResourceMetrics`: totals, usage and availability from the two snapshots,
then one conditional per recognised annotation key, in source order. `gpuMetrics` is rebound
after each conditional; a conditional that calls `resource.MustParse` can panic. In the two
aggregating conditionals the loop `for range gpuMetrics.Count` adds the parsed quantity to a
fresh zero quantity. -/
def forgeResourceMetrics (lib : Parsers) (nodeMetrics : NodeMetrics) (node : Node) :
    Result ResourceMetrics := do
  let cpuTotal := node.Status.Allocatable.Cpu
  let cpuUsed := nodeMetrics.Usage.Cpu
  let memoryTotal := node.Status.Allocatable.Memory
  let memoryUsed := nodeMetrics.Usage.Memory
  let podsTotal := node.Status.Allocatable.Pods
  let podsUsed := nodeMetrics.Usage.Pods
  let ephemeralStorage := nodeMetrics.Usage.StorageEphemeral
  let cpuAvail := cpuTotal.Sub cpuUsed
  let memAvail := memoryTotal.Sub memoryUsed
  let podsAvail := podsTotal.Sub podsUsed
  let gpuMetrics : GPUMetrics := {}
  let annotations : String → Option String :=
    match node.Annotations with
    | none => fun _ => none
    | some a => a
  let gpuMetrics : GPUMetrics :=
    whenFound annotations "provider.fluidos.eu/name"
      (fun v g => { g with Provider := v }) gpuMetrics
  let gpuMetrics : GPUMetrics :=
    whenFound annotations "gpu.fluidos.eu/vendor" (fun v g => { g with Vendor := v }) gpuMetrics
  let gpuMetrics : GPUMetrics :=
    whenFound annotations "gpu.fluidos.eu/model" (fun v g => { g with Model := v }) gpuMetrics
  let gpuMetrics : GPUMetrics :=
    whenFound annotations "gpu.fluidos.eu/count"
      (fun v g => { g with Count := (Atoi v).1 }) gpuMetrics
  let gpuMetrics : GPUMetrics ←
    whenFoundMustParse lib annotations "gpu.fluidos.eu/memory-per-gpu"
      (fun qty g => { g with MemoryTotal := addRepeated g.Count qty Quantity.zero }) gpuMetrics
  let gpuMetrics : GPUMetrics :=
    whenFound annotations "gpu.fluidos.eu/tier" (fun v g => { g with Tier := v }) gpuMetrics
  let gpuMetrics : GPUMetrics :=
    whenFound annotations "gpu.fluidos.eu/architecture"
      (fun v g => { g with Architecture := v }) gpuMetrics
  let gpuMetrics : GPUMetrics :=
    whenFound annotations "gpu.fluidos.eu/compute-capability"
      (fun v g => { g with ComputeCapability := v }) gpuMetrics
  let gpuMetrics : GPUMetrics :=
    whenFound annotations "nvidia.fluidos.eu/mig-capable"
      (fun v g => { g with MultiInstance := (ParseBool v).1 }) gpuMetrics
  let gpuMetrics : GPUMetrics :=
    whenFound annotations "gpu.fluidos.eu/fp32-tflops"
      (fun v g => { g with FP32TFlops := (lib.ParseFloat v).1 }) gpuMetrics
  let gpuMetrics : GPUMetrics :=
    whenFound annotations "gpu.fluidos.eu/sharing-capable"
      (fun v g => { g with Shared := (ParseBool v).1 }) gpuMetrics
  let gpuMetrics : GPUMetrics :=
    whenFound annotations "gpu.fluidos.eu/sharing-strategy"
      (fun v g => { g with SharingStrategy := v }) gpuMetrics
  let gpuMetrics : GPUMetrics :=
    whenFound annotations "gpu.fluidos.eu/interconnect"
      (fun v g => { g with Interconnect := v }) gpuMetrics
  let gpuMetrics : GPUMetrics ←
    whenFoundMustParse lib annotations "gpu.fluidos.eu/interconnect-bandwidth-gbps"
      (fun qty g => { g with InterconnectBandwidth := qty }) gpuMetrics
  let gpuMetrics : GPUMetrics ←
    whenFoundMustParse lib annotations "gpu.fluidos.eu/cores"
      (fun qty g => { g with CoresTotal := addRepeated g.Count qty Quantity.zero }) gpuMetrics
  let gpuMetrics : GPUMetrics ←
    whenFoundMustParse lib annotations "gpu.fluidos.eu/clock-speed"
      (fun qty g => { g with ClockSpeed := qty }) gpuMetrics
  let gpuMetrics : GPUMetrics :=
    whenFound annotations "gpu.fluidos.eu/interruptible"
      (fun v g => { g with Interruptible := (ParseBool v).1 }) gpuMetrics
  let gpuMetrics : GPUMetrics :=
    whenFound annotations "gpu.fluidos.eu/dedicated"
      (fun v g => { g with Dedicated := (ParseBool v).1 }) gpuMetrics
  let gpuMetrics : GPUMetrics :=
    whenFound annotations "gpu.fluidos.eu/topology" (fun v g => { g with Topology := v }) gpuMetrics
  let gpuMetrics : GPUMetrics :=
    whenFound annotations "gpu.fluidos.eu/multi-gpu-efficiency"
      (fun v g => { g with MultiGPUEfficiency := v }) gpuMetrics
  let gpuMetrics : GPUMetrics :=
    whenFound annotations "cost.fluidos.eu/hourly-rate"
      (fun v g => { g with HourlyRate := (lib.ParseFloat v).1 }) gpuMetrics
  let gpuMetrics : GPUMetrics :=
    whenFound annotations "provider.fluidos.eu/preemptible"
      (fun v g => { g with PreEmptible := (ParseBool v).1 }) gpuMetrics
  let gpuMetrics : GPUMetrics :=
    whenFound annotations "workload.fluidos.eu/training-score"
      (fun v g => { g with TrainingScore := (lib.ParseFloat v).1 }) gpuMetrics
  let gpuMetrics : GPUMetrics :=
    whenFound annotations "workload.fluidos.eu/inference-score"
      (fun v g => { g with InferenceScore := (lib.ParseFloat v).1 }) gpuMetrics
  let gpuMetrics : GPUMetrics :=
    whenFound annotations "workload.fluidos.eu/hpc-score"
      (fun v g => { g with HPCScore := (lib.ParseFloat v).1 }) gpuMetrics
  let gpuMetrics : GPUMetrics :=
    whenFound annotations "workload.fluidos.eu/graphics-score"
      (fun v g => { g with GraphicsScore := (lib.ParseFloat v).1 }) gpuMetrics
  let gpuMetrics : GPUMetrics ←
    whenFoundMustParse lib annotations "network.fluidos.eu/bandwidth-gbps"
      (fun qty g => { g with NetworkBandwidth := qty }) gpuMetrics
  let gpuMetrics : GPUMetrics :=
    whenFound annotations "network.fluidos.eu/latency-ms"
      (fun v g => { g with NetworkLatencyMs := (ParseInt v).1 }) gpuMetrics
  let gpuMetrics : GPUMetrics :=
    whenFound annotations "network.fluidos.eu/tier"
      (fun v g => { g with NetworkTier := v }) gpuMetrics
  let gpuMetrics : GPUMetrics :=
    whenFound annotations "location.fluidos.eu/zone" (fun v g => { g with Region := v }) gpuMetrics
  let gpuMetrics : GPUMetrics :=
    whenFound annotations "location.fluidos.eu/region" (fun v g => { g with Zone := v }) gpuMetrics
  pure {
    CPUTotal := cpuTotal
    CPUAvailable := cpuAvail
    MemoryTotal := memoryTotal
    MemoryAvailable := memAvail
    PodsTotal := podsTotal
    PodsAvailable := podsAvail
    EphemeralStorage := ephemeralStorage
    GPU := gpuMetrics }

/-- The function `forgeNodeInfo`. -/
def forgeNodeInfo (node : Node) (metrics : ResourceMetrics) : NodeInfo :=
  { UID := node.UID
    Name := node.Name
    Architecture := node.Status.NodeInfo.Architecture
    OperatingSystem := node.Status.NodeInfo.OperatingSystem
    ResourceMetrics := metrics }

/-- The function `GetNodeInfos`: an error when the two names differ, else the node info forged
from the two snapshots. A panic of `forgeResourceMetrics` is not recovered. -/
def GetNodeInfos (lib : Parsers) (node : Node) (nodeMetrics : NodeMetrics) : Result NodeInfo :=
  if node.Name ≠ nodeMetrics.Name then
    .error "node and node metrics do not match"
  else do
    let metricsStruct ← forgeResourceMetrics lib nodeMetrics node
    let nodeInfo := forgeNodeInfo node metricsStruct
    pure nodeInfo

/-! ## Offer records (`apis/nodecore/v1alpha1`) -/

/-- Modelled from the spec: the declaration of `nodecorev1alpha1.GPU` is not among the sources.
Its fields are the ones assigned by `ToNodeCoreGPU` and by `createOrUpdateFlavor`, with the
types of the values assigned to them. -/
structure GPU where
  Model : String := ""
  Cores : Quantity := {}
  Memory : Quantity := {}
  Vendor : String := ""
  Tier : String := ""
  Count : Int := 0
  MultiInstance : Bool := false
  Shared : Bool := false
  SharingStrategy : String := ""
  Dedicated : Bool := false
  Interruptible : Bool := false
  NetworkBandwidth : Quantity := {}
  NetworkLatencyMs : Int := 0
  NetworkTier : String := ""
  TrainingScore : Float64 := {}
  InferenceScore : Float64 := {}
  HPCScore : Float64 := {}
  GraphicsScore : Float64 := {}
  Architecture : String := ""
  Interconnect : String := ""
  InterconnectBandwidth : Quantity := {}
  CoresTotal : Quantity := {}
  ComputeCapability : String := ""
  ClockSpeed : Quantity := {}
  FP32TFlops : Float64 := {}
  Topology : String := ""
  MultiGPUEfficiency : String := ""
  Region : String := ""
  Zone : String := ""
  HourlyRate : Float64 := {}
  Provider : String := ""
  PreEmptible : Bool := false
  deriving DecidableEq, Repr

/-- Modelled from the spec: the declaration of `nodecorev1alpha1.K8SliceCharacteristics` is not
among the sources; the spec lists architecture, CPU, memory and pod quantities, an optional
storage quantity and optional GPU characteristics. -/
structure K8SliceCharacteristics where
  Architecture : String := ""
  CPU : Quantity := {}
  Memory : Quantity := {}
  Pods : Quantity := {}
  Gpu : Option GPU := none
  Storage : Option Quantity := none
  deriving DecidableEq, Repr

/-- Modelled from the spec: the declaration of `nodecorev1alpha1.Properties` is not among the
sources; the spec lists latency, security standards, carbon footprint, network authorizations
and free-form additional properties. The merge never looks inside this block, so the nested
records are kept in encoded form. -/
structure Properties where
  Latency : Int := 0
  SecurityStandards : List String := []
  CarbonFootprint : Option Bytes := none
  NetworkAuthorizations : Option Bytes := none
  AdditionalProperties : List (String × Bytes) := []
  deriving DecidableEq, Repr

/-- The struct `nodecorev1alpha1.Partitionability`, as built by `createOrUpdateFlavor`. -/
structure Partitionability where
  CPUMin : Quantity := {}
  MemoryMin : Quantity := {}
  PodsMin : Quantity := {}
  CPUStep : Quantity := {}
  MemoryStep : Quantity := {}
  PodsStep : Quantity := {}
  deriving DecidableEq, Repr

/-- The struct `nodecorev1alpha1.Policies`, as built by `createOrUpdateFlavor`. -/
structure Policies where
  Partitionability : Partitionability := {}
  deriving DecidableEq, Repr

/-- The struct `nodecorev1alpha1.K8Slice`: the payload of an offer of type K8Slice. -/
structure K8Slice where
  Characteristics : K8SliceCharacteristics := {}
  Properties : Properties := {}
  Policies : Policies := {}
  deriving DecidableEq, Repr

/-- The part of `nodecorev1alpha1.NodeIdentity` that the code reads. -/
structure NodeIdentity where
  Domain : String := ""
  NodeID : String := ""
  deriving DecidableEq, Repr

/-- The struct `nodecorev1alpha1.Price`, as assigned by `createOrUpdateFlavor`. -/
structure Price where
  Amount : String := ""
  Currency : String := ""
  Period : String := ""
  deriving DecidableEq, Repr

/-- The struct `nodecorev1alpha1.Location`, as built by `createOrUpdateFlavor`. -/
structure Location where
  Latitude : String := ""
  Longitude : String := ""
  Country : String := ""
  City : String := ""
  AdditionalNotes : String := ""
  deriving DecidableEq, Repr

/-- A `runtime.RawExtension`: the opaque serialized payload. -/
structure RawExtension where
  Raw : Bytes := []
  deriving DecidableEq, Repr

/-- The struct `nodecorev1alpha1.FlavorType`: a type tag and the serialized payload. -/
structure FlavorType where
  TypeIdentifier : String := ""
  TypeData : RawExtension := {}
  deriving DecidableEq, Repr

/-- The struct `nodecorev1alpha1.FlavorSpec`, with the fields `createOrUpdateFlavor` assigns. -/
structure FlavorSpec where
  ProviderID : String := ""
  FlavorType : FlavorType := {}
  Owner : NodeIdentity := {}
  Price : Price := {}
  Availability : Bool := false
  NetworkPropertyType : String := ""
  Location : Option Location := none
  deriving DecidableEq, Repr

/-- A `metav1.OwnerReference`. -/
structure OwnerReference where
  APIVersion : String := ""
  Kind : String := ""
  Name : String := ""
  UID : String := ""
  deriving DecidableEq, Repr

/-- A `nodecorev1alpha1.Flavor`: the metadata the code touches and the spec. The default is the
zero value `nodecorev1alpha1.Flavor{}`. -/
structure Flavor where
  Name : String := ""
  Namespace : String := ""
  OwnerReferences : List OwnerReference := []
  Spec : FlavorSpec := {}
  deriving DecidableEq, Repr

/-- Modelled from the spec: the constant `nodecorev1alpha1.TypeK8Slice` is not among the sources;
the spec gives the type tag of the payload as `K8Slice`. -/
def TypeK8Slice : String := "K8Slice"

/-! ## `controllerutil.SetOwnerReference` -/

/-- A `schema.GroupVersionKind`. -/
structure GroupVersionKind where
  Group : String := ""
  Version : String := ""
  Kind : String := ""
  deriving DecidableEq, Repr

/-- The method `GroupVersion.String()`: `group/version`, or the version alone for the empty
group. -/
def GroupVersionKind.apiVersion (gvk : GroupVersionKind) : String :=
  if gvk.Group.length > 0 then gvk.Group ++ "/" ++ gvk.Version else gvk.Version

/-- The function `schema.ParseGroupVersion`, reduced to the group it returns: the empty group
for a string without slash, the part before the slash when there is one slash, and `none` (an
error) when there are more. -/
def parseGroup (gv : String) : Option String :=
  if gv.length = 0 ∨ gv = "/" then some ""
  else
    match (gv.toList.filter (· == '/')).length with
    | 0 => some ""
    | 1 => some (String.mk (gv.toList.takeWhile (· != '/')))
    | _ => none

/-- The helper `referSameObject`: same group, kind and name. -/
def referSameObject (a b : OwnerReference) : Bool :=
  match parseGroup a.APIVersion, parseGroup b.APIVersion with
  | some ga, some gb => ga == gb && a.Kind == b.Kind && a.Name == b.Name
  | _, _ => false

/-- The helper `upsertOwnerRef`: the first reference to the same object is overwritten, and the
reference is appended when there is none. -/
def upsertOwnerRef (ref : OwnerReference) : List OwnerReference → List OwnerReference
  | [] => [ref]
  | r :: owners => if referSameObject r ref then ref :: owners else r :: upsertOwnerRef ref owners

/-! ## Configuration and collaborators of the controller -/

/-- The constants of package `flags` that the controller reads; their values are set at process
start and are parameters here. -/
structure Flags where
  ResourceNodeLabel : String
  FluidosNamespace : String
  CPUMin : String
  MemoryMin : String
  PodsMin : String
  CPUStep : String
  MemoryStep : String
  PodsStep : String
  AMOUNT : String
  CURRENCY : String
  PERIOD : String

/-- Error of a client read, with the classification `apierrors.IsNotFound`. -/
structure ClientError where
  IsNotFound : Bool
  msg : Error
  deriving DecidableEq, Repr

/-- A request key, `types.NamespacedName`. -/
structure NamespacedName where
  Namespace : String := ""
  Name : String := ""
  deriving DecidableEq, Repr

/-- The value `ctrl.Result`. -/
structure CtrlResult where
  Requeue : Bool := false
  deriving DecidableEq, Repr

/-- The receiver `NodeReconciler` together with what its calls into other packages return.

* `WebhookServer` is `none` for a nil server, else the value of `StartedChecker()(nil)`
  (`none` when the server is started).
* `GetNode`, `GetNodeMetrics`, `ListFlavors` are the reads of the API client; `ListFlavors`
  takes the index field and the value selected.
* `CreateOrUpdate` is `controllerutil.CreateOrUpdate` applied to the object and the mutate
  function: it decides which stored state the mutate function sees and writes the outcome.
* `GVKForObject` is `apiutil.GVKForObject(owner, scheme)`.
* `GetNodeIdentity`, `ForgeFlavorName`, `ParseQuantityFromString` are the functions of packages
  `getters`, `namings` and `parseutil`.
* `Marshal` and `Unmarshal` are `json.Marshal` and `json.Unmarshal` at type `K8Slice`. -/
structure NodeReconciler where
  EnableAutoDiscovery : Bool
  WebhookServer : Option (Option Error)
  flags : Flags
  parsers : Parsers
  GetNode : NamespacedName → Except ClientError Node
  GetNodeMetrics : String → Except Error NodeMetrics
  GetNodeIdentity : Option NodeIdentity
  ListFlavors : String → String → Except Error (List Flavor)
  CreateOrUpdate : Flavor → (Flavor → Result Flavor) → Result Unit
  GVKForObject : Node → Except Error GroupVersionKind
  ForgeFlavorName : String → String → String
  ParseQuantityFromString : String → Quantity
  Marshal : K8Slice → Except Error Bytes
  Unmarshal : Bytes → Except Error K8Slice

/-- The call `controllerutil.SetOwnerReference(owner, flavor, scheme)` for a node owner: an
error when the scheme does not know the kind of the owner, else the reference to the owner is
upserted into the owner references of the object. -/
def SetOwnerReference (r : NodeReconciler) (owner : Node) (object : Flavor) : Result Flavor :=
  match r.GVKForObject owner with
  | .error e => .error e
  | .ok gvk =>
    let ref : OwnerReference :=
      { APIVersion := gvk.apiVersion
        Kind := gvk.Kind
        UID := owner.UID
        Name := owner.Name }
    .ok { object with OwnerReferences := upsertOwnerRef ref object.OwnerReferences }

/-! ## `pkg/local-resource-manager/node_controller.go` -/

/-- The mutate function that `createOrUpdateFlavor` hands to `controllerutil.CreateOrUpdate`
(the closure of lines 159-249), as a function of the object it is run on. It returns the
mutated object, or the error the closure returns. `shouldCreate` is the captured variable. -/
def createOrUpdateFlavor.mutate (r : NodeReconciler) (shouldCreate : Bool) (nodeInfo : NodeInfo)
    (nodeIdentity : NodeIdentity) (owner : Node) (flavor : Flavor) : Result Flavor := do
  let k8sSliceType : K8Slice ←
    if flavor.Spec.FlavorType.TypeData.Raw.length > 0 then
      match r.Unmarshal flavor.Spec.FlavorType.TypeData.Raw with
      | .error unmarshalErr => Result.error unmarshalErr
      | .ok v => Result.ok v
    else
      Result.ok {}
  let k8sSliceType : K8Slice :=
    if shouldCreate then
      { k8sSliceType with
        Characteristics :=
          { k8sSliceType.Characteristics with
            CPU := nodeInfo.ResourceMetrics.CPUAvailable
            Memory := nodeInfo.ResourceMetrics.MemoryAvailable
            Pods := nodeInfo.ResourceMetrics.PodsAvailable
            Storage := some nodeInfo.ResourceMetrics.EphemeralStorage } }
    else k8sSliceType
  let k8sSliceType : K8Slice :=
    { k8sSliceType with
      Characteristics :=
        { k8sSliceType.Characteristics with
          Architecture := nodeInfo.Architecture
          Gpu := some
            { Model := nodeInfo.ResourceMetrics.GPU.Model
              Memory := nodeInfo.ResourceMetrics.GPU.MemoryTotal
              Vendor := nodeInfo.ResourceMetrics.GPU.Vendor
              Tier := nodeInfo.ResourceMetrics.GPU.Tier
              MultiInstance := nodeInfo.ResourceMetrics.GPU.MultiInstance
              Shared := nodeInfo.ResourceMetrics.GPU.Shared
              SharingStrategy := nodeInfo.ResourceMetrics.GPU.SharingStrategy
              Dedicated := nodeInfo.ResourceMetrics.GPU.Dedicated
              Interruptible := nodeInfo.ResourceMetrics.GPU.Interruptible
              NetworkBandwidth := nodeInfo.ResourceMetrics.GPU.NetworkBandwidth
              NetworkLatencyMs := nodeInfo.ResourceMetrics.GPU.NetworkLatencyMs
              NetworkTier := nodeInfo.ResourceMetrics.GPU.NetworkTier
              TrainingScore := nodeInfo.ResourceMetrics.GPU.TrainingScore
              InferenceScore := nodeInfo.ResourceMetrics.GPU.InferenceScore
              HPCScore := nodeInfo.ResourceMetrics.GPU.HPCScore
              GraphicsScore := nodeInfo.ResourceMetrics.GPU.GraphicsScore
              Architecture := nodeInfo.ResourceMetrics.GPU.Architecture
              Interconnect := nodeInfo.ResourceMetrics.GPU.Interconnect
              InterconnectBandwidth := nodeInfo.ResourceMetrics.GPU.InterconnectBandwidth
              CoresTotal := nodeInfo.ResourceMetrics.GPU.CoresTotal
              ComputeCapability := nodeInfo.ResourceMetrics.GPU.ComputeCapability
              ClockSpeed := nodeInfo.ResourceMetrics.GPU.ClockSpeed
              FP32TFlops := nodeInfo.ResourceMetrics.GPU.FP32TFlops
              Topology := nodeInfo.ResourceMetrics.GPU.Topology
              MultiGPUEfficiency := nodeInfo.ResourceMetrics.GPU.MultiGPUEfficiency
              Region := nodeInfo.ResourceMetrics.GPU.Region
              Zone := nodeInfo.ResourceMetrics.GPU.Zone
              HourlyRate := nodeInfo.ResourceMetrics.GPU.HourlyRate
              Provider := nodeInfo.ResourceMetrics.GPU.Provider
              PreEmptible := nodeInfo.ResourceMetrics.GPU.PreEmptible } } }
  let k8sSliceType : K8Slice :=
    { k8sSliceType with
      Policies :=
        { Partitionability :=
            { CPUMin := r.ParseQuantityFromString r.flags.CPUMin
              MemoryMin := r.ParseQuantityFromString r.flags.MemoryMin
              PodsMin := r.ParseQuantityFromString r.flags.PodsMin
              CPUStep := r.ParseQuantityFromString r.flags.CPUStep
              MemoryStep := r.ParseQuantityFromString r.flags.MemoryStep
              PodsStep := r.ParseQuantityFromString r.flags.PodsStep } } }
  let k8SliceTypeJSON : Bytes ←
    match r.Marshal k8sSliceType with
    | .error marshalErr => Result.error marshalErr
    | .ok b => Result.ok b
  let flavor : Flavor :=
    { flavor with
      Spec :=
        { flavor.Spec with
          ProviderID := nodeIdentity.NodeID
          FlavorType := { TypeIdentifier := TypeK8Slice, TypeData := { Raw := k8SliceTypeJSON } }
          Owner := nodeIdentity } }
  let flavor : Flavor :=
    if shouldCreate then
      { flavor with
        Spec :=
          { flavor.Spec with
            Price := { Amount := r.flags.AMOUNT, Currency := r.flags.CURRENCY, Period := r.flags.PERIOD }
            Availability := true
            NetworkPropertyType := "networkProperty"
            Location := some
              { Latitude := "10"
                Longitude := "58"
                Country := "Italy"
                City := "Turin"
                AdditionalNotes := "None" } } }
    else flavor
  SetOwnerReference r owner flavor

/-- The object `createOrUpdateFlavor` hands to `controllerutil.CreateOrUpdate` (lines 149-155):
the existing record, or a fresh one with a forged name, in the FLUIDOS namespace. -/
def createOrUpdateFlavor.object (r : NodeReconciler) (flavor : Option Flavor)
    (nodeIdentity : NodeIdentity) : Flavor :=
  let flavor : Flavor :=
    match flavor with
    | none => { ({} : Flavor) with Name := r.ForgeFlavorName TypeK8Slice nodeIdentity.Domain }
    | some flavor => flavor
  { flavor with Namespace := r.flags.FluidosNamespace }

/-- The method `createOrUpdateFlavor`: `flavor` is `none` for a nil pointer. It returns the
error of `controllerutil.CreateOrUpdate`, if any. -/
def createOrUpdateFlavor (r : NodeReconciler) (flavor : Option Flavor) (nodeInfo : NodeInfo)
    (nodeIdentity : NodeIdentity) (owner : Node) : Result Unit :=
  let shouldCreate := flavor.isNone
  let flavor := createOrUpdateFlavor.object r flavor nodeIdentity
  r.CreateOrUpdate flavor
    (createOrUpdateFlavor.mutate r shouldCreate nodeInfo nodeIdentity owner)

/-- The merge `createOrUpdateFlavor` performs on an optional existing record, when the mutate
function is run on the object handed over (no concurrent edit of the stored record). -/
def createOrUpdateFlavor.merge (r : NodeReconciler) (flavor : Option Flavor)
    (nodeInfo : NodeInfo) (nodeIdentity : NodeIdentity) (owner : Node) : Result Flavor :=
  createOrUpdateFlavor.mutate r flavor.isNone nodeInfo nodeIdentity owner
    (createOrUpdateFlavor.object r flavor nodeIdentity)

/-- The inner loop of lines 125-133 for the list item `i`: the first owner reference of kind
`Node` sets `flavor = &i` and breaks out of this loop (only). -/
def Reconcile.ownerLoop (i : Flavor) : List OwnerReference → Option Flavor → Option Flavor
  | [], flavor => flavor
  | or :: rest, flavor =>
    if or.Kind = "Node" then some i
    else Reconcile.ownerLoop i rest flavor

/-- The loop of lines 122-134 over `matchFlavors.Items`, starting from `flavor == nil`. Each
iteration has its own variable `i` (the module uses `for range` over an integer, hence the
loop-variable semantics of Go 1.22), so `&i` designates the item of that iteration. -/
def Reconcile.selectFlavor (items : List Flavor) : Option Flavor :=
  items.foldl (fun flavor i => Reconcile.ownerLoop i i.OwnerReferences flavor) none

/-- The external calls a pass of `Reconcile` makes, in order. -/
inductive Call where
  | StartedChecker
  | GetNode (key : NamespacedName)
  | GetNodeMetrics (name : String)
  | GetNodeIdentity
  | ListFlavors (field value : String)
  | CreateOrUpdate (object : Flavor)
  deriving DecidableEq, Repr

/-- The method `FlavorByNodeName.Field` of package `indexer`. -/
def FlavorByNodeName.Field : String := "metadata.ownerReferences.name"

/-- The method `LabelSelector` applied with `Matches`: the label set has the resource-node
label with value `true`. -/
def LabelSelectorMatches (r : NodeReconciler) (labels : Option (String → Option String)) : Bool :=
  match labels with
  | none => false
  | some l => l r.flags.ResourceNodeLabel == some "true"

/-- Lines 88-144 of `Reconcile`: the pass once the variable `node` is set; `calls` are the
external calls made so far. -/
def Reconcile.withNode (r : NodeReconciler) (node : Node) (calls : List Call) :
    List Call × Result CtrlResult :=
  if ¬ LabelSelectorMatches r node.Labels then (calls, .ok {})
  else
    let calls := calls ++ [.GetNodeMetrics node.Name]
    match r.GetNodeMetrics node.Name with
    | .error err => (calls, .error err)
    | .ok nodeMetrics =>
      match GetNodeInfos r.parsers node nodeMetrics with
      | .panic m => (calls, .panic m)
      | .error err => (calls, .error err)
      | .ok nodeInfo =>
        let calls := calls ++ [.GetNodeIdentity]
        match r.GetNodeIdentity with
        | none => (calls, .ok {})
        | some nodeIdentity =>
          let calls := calls ++ [.ListFlavors FlavorByNodeName.Field node.Name]
          match r.ListFlavors FlavorByNodeName.Field node.Name with
          | .error _ => (calls, .ok {})
          | .ok items =>
            let flavor := Reconcile.selectFlavor items
            let calls := calls ++
              [.CreateOrUpdate (createOrUpdateFlavor.object r flavor nodeIdentity)]
            match createOrUpdateFlavor r flavor nodeInfo nodeIdentity node with
            | .panic m => (calls, .panic m)
            | .error _ => (calls, .ok { Requeue := true })
            | .ok _ => (calls, .ok {})

/-- The method `Reconcile`: the external calls made, and the outcome. `Result.ok res` stands
for the return `res, nil` and `Result.error err` for the return `ctrl.Result{}, err`. -/
def Reconcile (r : NodeReconciler) (req : NamespacedName) : List Call × Result CtrlResult :=
  if ¬ r.EnableAutoDiscovery then
    ([], .ok {})
  else
    let checked : List Call := if r.WebhookServer.isSome then [.StartedChecker] else []
    match r.WebhookServer with
    | some (some _) => (checked, .ok { Requeue := true })
    | _ =>
      let calls := checked ++ [.GetNode req]
      match r.GetNode req with
      | .error err =>
        if ¬ err.IsNotFound then (calls, .ok {})
        else Reconcile.withNode r {} calls
      | .ok node => Reconcile.withNode r node calls

/-! ## Closed form of the annotation scan -/

/-- The annotation map the scan reads: `node.ObjectMeta.Annotations`, a `nil` map being
replaced by an empty one. -/
def annotationsOf (node : Node) : String → Option String :=
  match node.Annotations with
  | none => fun _ => none
  | some a => a

/-- The value found under `key` passed through `f`, or `d` when the key is absent. -/
def foundOr {β : Type} (annotations : String → Option String) (key : String) (f : String → β)
    (d : β) : β :=
  match annotations key with
  | some v => f v
  | none => d

/-- The metrics after a quantity-typed conditional whose key gave `oq`: assigned when a
quantity was parsed, unchanged when the key is absent. -/
def whenSome (oq : Option Quantity) (assign : Quantity → GPUMetrics → GPUMetrics)
    (gpuMetrics : GPUMetrics) : GPUMetrics :=
  match oq with
  | some qty => assign qty gpuMetrics
  | none => gpuMetrics

/-- The parsed quantity passed through `f`, or `d` when the key is absent. -/
def someOr {β : Type} (oq : Option Quantity) (f : Quantity → β) (d : β) : β :=
  match oq with
  | some qty => f qty
  | none => d

/-- Outcome of reading a quantity-typed key: absent, parsed, or a panic of
`resource.MustParse`. -/
def quantityAt (lib : Parsers) (annotations : String → Option String) (key : String) :
    Result (Option Quantity) :=
  match annotations key with
  | none => .ok none
  | some v =>
    match lib.ParseQuantity v with
    | .ok q => .ok (some q)
    | .error e => .panic e

/-- The GPU metrics the scan ends with, field by field, given the annotation map and the
outcome of the five quantity-typed keys (`none` for an absent key). -/
def gpuMetricsOf (lib : Parsers) (ann : String → Option String)
    (memoryPerGpu interconnectBandwidth cores clockSpeed networkBandwidth : Option Quantity) :
    GPUMetrics :=
  { MultiInstance := foundOr ann "nvidia.fluidos.eu/mig-capable" (fun v => (ParseBool v).1) false
    Shared := foundOr ann "gpu.fluidos.eu/sharing-capable" (fun v => (ParseBool v).1) false
    SharingStrategy := foundOr ann "gpu.fluidos.eu/sharing-strategy" (fun v => v) ""
    Dedicated := foundOr ann "gpu.fluidos.eu/dedicated" (fun v => (ParseBool v).1) false
    Interruptible := foundOr ann "gpu.fluidos.eu/interruptible" (fun v => (ParseBool v).1) false
    NetworkBandwidth := someOr networkBandwidth (fun qty => qty) {}
    NetworkLatencyMs := foundOr ann "network.fluidos.eu/latency-ms" (fun v => (ParseInt v).1) 0
    NetworkTier := foundOr ann "network.fluidos.eu/tier" (fun v => v) ""
    TrainingScore := foundOr ann "workload.fluidos.eu/training-score" (fun v => (lib.ParseFloat v).1) {}
    InferenceScore := foundOr ann "workload.fluidos.eu/inference-score" (fun v => (lib.ParseFloat v).1) {}
    HPCScore := foundOr ann "workload.fluidos.eu/hpc-score" (fun v => (lib.ParseFloat v).1) {}
    GraphicsScore := foundOr ann "workload.fluidos.eu/graphics-score" (fun v => (lib.ParseFloat v).1) {}
    Architecture := foundOr ann "gpu.fluidos.eu/architecture" (fun v => v) ""
    Interconnect := foundOr ann "gpu.fluidos.eu/interconnect" (fun v => v) ""
    InterconnectBandwidth := someOr interconnectBandwidth (fun qty => qty) {}
    CoresTotal :=
      someOr cores
        (fun qty =>
          addRepeated (foundOr ann "gpu.fluidos.eu/count" (fun v => (Atoi v).1) 0) qty Quantity.zero)
        {}
    ComputeCapability := foundOr ann "gpu.fluidos.eu/compute-capability" (fun v => v) ""
    ClockSpeed := someOr clockSpeed (fun qty => qty) {}
    FP32TFlops := foundOr ann "gpu.fluidos.eu/fp32-tflops" (fun v => (lib.ParseFloat v).1) {}
    Topology := foundOr ann "gpu.fluidos.eu/topology" (fun v => v) ""
    MultiGPUEfficiency := foundOr ann "gpu.fluidos.eu/multi-gpu-efficiency" (fun v => v) ""
    Region := foundOr ann "location.fluidos.eu/zone" (fun v => v) ""
    Zone := foundOr ann "location.fluidos.eu/region" (fun v => v) ""
    HourlyRate := foundOr ann "cost.fluidos.eu/hourly-rate" (fun v => (lib.ParseFloat v).1) {}
    Provider := foundOr ann "provider.fluidos.eu/name" (fun v => v) ""
    PreEmptible := foundOr ann "provider.fluidos.eu/preemptible" (fun v => (ParseBool v).1) false
    Vendor := foundOr ann "gpu.fluidos.eu/vendor" (fun v => v) ""
    Model := foundOr ann "gpu.fluidos.eu/model" (fun v => v) ""
    Count := foundOr ann "gpu.fluidos.eu/count" (fun v => (Atoi v).1) 0
    MemoryTotal :=
      someOr memoryPerGpu
        (fun qty =>
          addRepeated (foundOr ann "gpu.fluidos.eu/count" (fun v => (Atoi v).1) 0) qty Quantity.zero)
        {}
    Tier := foundOr ann "gpu.fluidos.eu/tier" (fun v => v) ""
    CoresAvailable := {}
    MemoryAvailable := {}
    CountAvailable := 0 }

/-- The resource metrics `forgeResourceMetrics` returns when no quantity-typed key panics. -/
def resourceMetricsOf (nodeMetrics : NodeMetrics) (node : Node) (gpu : GPUMetrics) :
    ResourceMetrics :=
  { CPUTotal := node.Status.Allocatable.Cpu
    CPUAvailable := node.Status.Allocatable.Cpu.Sub nodeMetrics.Usage.Cpu
    MemoryTotal := node.Status.Allocatable.Memory
    MemoryAvailable := node.Status.Allocatable.Memory.Sub nodeMetrics.Usage.Memory
    PodsTotal := node.Status.Allocatable.Pods
    PodsAvailable := node.Status.Allocatable.Pods.Sub nodeMetrics.Usage.Pods
    EphemeralStorage := nodeMetrics.Usage.StorageEphemeral
    GPU := gpu }

/-! ## Well-formed annotation maps -/

/-- The five annotation keys read with `resource.MustParse`, in source order. -/
def quantityKeys : List String :=
  [ "gpu.fluidos.eu/memory-per-gpu"
  , "gpu.fluidos.eu/interconnect-bandwidth-gbps"
  , "gpu.fluidos.eu/cores"
  , "gpu.fluidos.eu/clock-speed"
  , "network.fluidos.eu/bandwidth-gbps" ]

/-- Every quantity-typed key that is present holds a string `resource.ParseQuantity` accepts. -/
def quantitiesParse (lib : Parsers) (ann : String → Option String) : Prop :=
  ∀ key, key ∈ quantityKeys → ∀ v, ann key = some v → ∃ q, lib.ParseQuantity v = .ok q

/-- The quantity parsed under `key`, `none` for an absent (or rejected) value. -/
def parsedAt (lib : Parsers) (ann : String → Option String) (key : String) : Option Quantity :=
  match ann key with
  | none => none
  | some v =>
    match lib.ParseQuantity v with
    | .ok q => some q
    | .error _ => none

/-- The annotation map of `node` with `key` removed. -/
def withoutKey (node : Node) (key : String) : Node :=
  { node with Annotations := some fun k => if k = key then none else annotationsOf node k }

/-! ## Sample inputs -/

/-- A quantity parser for the samples: it accepts the plain decimal integers (which
`resource.ParseQuantity` accepts too, with the same amount) and rejects every other string.
The strings the samples have it reject (`lots`, `fast`, `many`, `wide`) are no quantities for
`resource.ParseQuantity` either. -/
def sampleParsers : Parsers where
  ParseQuantity := fun s =>
    match ParseInt s with
    | (n, none) => .ok ⟨n * 1000000000⟩
    | _ => .error "quantities must match the regular expression"
  ParseFloat := fun _ => ({}, some .ErrSyntax)

/-- A resource list with the three capacity entries, in whole base units. -/
def sampleResources (cpu memory pods : Int) : ResourceList := fun name =>
  if name = "cpu" then some ⟨cpu * 1000000000⟩
  else if name = "memory" then some ⟨memory * 1000000000⟩
  else if name = "pods" then some ⟨pods * 1000000000⟩
  else none

/-- A node named `worker-1` with 4 CPUs, 8 units of memory and room for 10 pods, carrying the
given annotations. -/
def sampleNode (annotations : Option (String → Option String)) : Node :=
  { Name := "worker-1"
    UID := "uid-1"
    Labels := some fun k => if k = "node-role.fluidos.eu/resources" then some "true" else none
    Annotations := annotations
    Status :=
      { Allocatable := sampleResources 4 8 10
        NodeInfo := { Architecture := "amd64", OperatingSystem := "linux" } } }

/-- A usage snapshot of `worker-1` that exceeds the allocatable CPU. -/
def sampleMetrics : NodeMetrics :=
  { Name := "worker-1"
    Usage := sampleResources 5 3 2 }

/-- An annotation map with one entry. -/
def singleEntry (key value : String) : String → Option String := fun k =>
  if k = key then some value else none

/-- An annotation map with a GPU count and the two per-unit quantities. -/
def gpuAnnotations (count memoryPerGpu cores : String) : String → Option String := fun k =>
  if k = "gpu.fluidos.eu/count" then some count
  else if k = "gpu.fluidos.eu/memory-per-gpu" then some memoryPerGpu
  else if k = "gpu.fluidos.eu/cores" then some cores
  else none

/-- Sample values of the `flags` constants. -/
def sampleFlags : Flags where
  ResourceNodeLabel := "node-role.fluidos.eu/resources"
  FluidosNamespace := "fluidos"
  CPUMin := "1"
  MemoryMin := "1"
  PodsMin := "1"
  CPUStep := "1"
  MemoryStep := "1"
  PodsStep := "1"
  AMOUNT := "10"
  CURRENCY := "EUR"
  PERIOD := "hourly"

/-- A sample `NodeInfo`: 3 CPUs, 5 units of memory and 8 pods available, four GPUs. -/
def sampleNodeInfo : NodeInfo :=
  { UID := "uid-1"
    Name := "worker-1"
    Architecture := "amd64"
    OperatingSystem := "linux"
    ResourceMetrics :=
      { CPUTotal := ⟨4000000000⟩
        CPUAvailable := ⟨3000000000⟩
        MemoryTotal := ⟨8000000000⟩
        MemoryAvailable := ⟨5000000000⟩
        PodsTotal := ⟨10000000000⟩
        PodsAvailable := ⟨8000000000⟩
        EphemeralStorage := ⟨2000000000⟩
        GPU :=
          { Vendor := "nvidia"
            Model := "a100"
            Count := 4
            MemoryTotal := ⟨32000000000⟩
            CoresTotal := ⟨64000000000⟩ } } }

/-- The payload `createOrUpdateFlavor` builds at creation from `sampleNodeInfo` under
`sampleFlags`. -/
def samplePayload : K8Slice :=
  { Characteristics :=
      { Architecture := "amd64"
        CPU := ⟨3000000000⟩
        Memory := ⟨5000000000⟩
        Pods := ⟨8000000000⟩
        Gpu := some
          { Vendor := "nvidia"
            Model := "a100"
            Memory := ⟨32000000000⟩
            CoresTotal := ⟨64000000000⟩ }
        Storage := some ⟨2000000000⟩ }
    Policies :=
      { Partitionability :=
          { CPUMin := ⟨1000000000⟩
            MemoryMin := ⟨1000000000⟩
            PodsMin := ⟨1000000000⟩
            CPUStep := ⟨1000000000⟩
            MemoryStep := ⟨1000000000⟩
            PodsStep := ⟨1000000000⟩ } } }

/-- A sample codec: `samplePayload` is encoded as the two bytes of `{}` standing for its
JSON text, every other payload is refused; decoding inverts this. -/
def sampleMarshal (k : K8Slice) : Except Error Bytes :=
  if k = samplePayload then .ok [123, 125] else .error "json: unsupported value"

/-- The decoder of the sample codec. -/
def sampleUnmarshal (b : Bytes) : Except Error K8Slice :=
  if b = [123, 125] then .ok samplePayload else .error "invalid character"

/-- A reconciler whose reads return the given node, usage snapshot and list of offers, with
auto-discovery enabled and a started webhook server. Its `CreateOrUpdate` runs the mutate
function on the object handed over and stores the outcome. -/
def sampleReconciler (node : Node) (nodeMetrics : NodeMetrics) (items : List Flavor) :
    NodeReconciler where
  EnableAutoDiscovery := true
  WebhookServer := some none
  flags := sampleFlags
  parsers := sampleParsers
  GetNode := fun _ => .ok node
  GetNodeMetrics := fun _ => .ok nodeMetrics
  GetNodeIdentity := some { Domain := "fluidos.eu", NodeID := "node-1" }
  ListFlavors := fun _ _ => .ok items
  CreateOrUpdate := fun object mutate =>
    match mutate object with
    | .ok _ => .ok ()
    | .error e => .error e
    | .panic m => .panic m
  GVKForObject := fun _ => .ok { Group := "", Version := "v1", Kind := "Node" }
  ForgeFlavorName := fun resourceType domain => resourceType ++ "-" ++ domain
  ParseQuantityFromString := fun s =>
    match sampleParsers.ParseQuantity s with
    | .ok q => q
    | .error _ => {}
  Marshal := sampleMarshal
  Unmarshal := sampleUnmarshal

/-! ## Closed form of the merge -/

/-- The payload the mutate function starts from (lines 160-165): the decoded raw payload of the
object when it is not empty, a decoding error ending the function, and the zero-valued payload
when it is empty. -/
def existingPayload (r : NodeReconciler) (flavor : Flavor) : Result K8Slice :=
  if flavor.Spec.FlavorType.TypeData.Raw.length > 0 then
    match r.Unmarshal flavor.Spec.FlavorType.TypeData.Raw with
    | .error unmarshalErr => .error unmarshalErr
    | .ok v => .ok v
  else .ok {}

/-- The GPU block the mutate function builds from a `NodeInfo` (lines 175-206). -/
def gpuBlockOf (nodeInfo : NodeInfo) : GPU :=
  { Model := nodeInfo.ResourceMetrics.GPU.Model
    Memory := nodeInfo.ResourceMetrics.GPU.MemoryTotal
    Vendor := nodeInfo.ResourceMetrics.GPU.Vendor
    Tier := nodeInfo.ResourceMetrics.GPU.Tier
    MultiInstance := nodeInfo.ResourceMetrics.GPU.MultiInstance
    Shared := nodeInfo.ResourceMetrics.GPU.Shared
    SharingStrategy := nodeInfo.ResourceMetrics.GPU.SharingStrategy
    Dedicated := nodeInfo.ResourceMetrics.GPU.Dedicated
    Interruptible := nodeInfo.ResourceMetrics.GPU.Interruptible
    NetworkBandwidth := nodeInfo.ResourceMetrics.GPU.NetworkBandwidth
    NetworkLatencyMs := nodeInfo.ResourceMetrics.GPU.NetworkLatencyMs
    NetworkTier := nodeInfo.ResourceMetrics.GPU.NetworkTier
    TrainingScore := nodeInfo.ResourceMetrics.GPU.TrainingScore
    InferenceScore := nodeInfo.ResourceMetrics.GPU.InferenceScore
    HPCScore := nodeInfo.ResourceMetrics.GPU.HPCScore
    GraphicsScore := nodeInfo.ResourceMetrics.GPU.GraphicsScore
    Architecture := nodeInfo.ResourceMetrics.GPU.Architecture
    Interconnect := nodeInfo.ResourceMetrics.GPU.Interconnect
    InterconnectBandwidth := nodeInfo.ResourceMetrics.GPU.InterconnectBandwidth
    CoresTotal := nodeInfo.ResourceMetrics.GPU.CoresTotal
    ComputeCapability := nodeInfo.ResourceMetrics.GPU.ComputeCapability
    ClockSpeed := nodeInfo.ResourceMetrics.GPU.ClockSpeed
    FP32TFlops := nodeInfo.ResourceMetrics.GPU.FP32TFlops
    Topology := nodeInfo.ResourceMetrics.GPU.Topology
    MultiGPUEfficiency := nodeInfo.ResourceMetrics.GPU.MultiGPUEfficiency
    Region := nodeInfo.ResourceMetrics.GPU.Region
    Zone := nodeInfo.ResourceMetrics.GPU.Zone
    HourlyRate := nodeInfo.ResourceMetrics.GPU.HourlyRate
    Provider := nodeInfo.ResourceMetrics.GPU.Provider
    PreEmptible := nodeInfo.ResourceMetrics.GPU.PreEmptible }

/-- The payload the mutate function serializes (lines 167-216), as a function of the payload
`k` it started from. -/
def mergedPayload (r : NodeReconciler) (shouldCreate : Bool) (nodeInfo : NodeInfo)
    (k : K8Slice) : K8Slice :=
  { Characteristics :=
      { Architecture := nodeInfo.Architecture
        CPU := if shouldCreate then nodeInfo.ResourceMetrics.CPUAvailable
          else k.Characteristics.CPU
        Memory := if shouldCreate then nodeInfo.ResourceMetrics.MemoryAvailable
          else k.Characteristics.Memory
        Pods := if shouldCreate then nodeInfo.ResourceMetrics.PodsAvailable
          else k.Characteristics.Pods
        Gpu := some (gpuBlockOf nodeInfo)
        Storage := if shouldCreate then some nodeInfo.ResourceMetrics.EphemeralStorage
          else k.Characteristics.Storage }
    Properties := k.Properties
    Policies :=
      { Partitionability :=
          { CPUMin := r.ParseQuantityFromString r.flags.CPUMin
            MemoryMin := r.ParseQuantityFromString r.flags.MemoryMin
            PodsMin := r.ParseQuantityFromString r.flags.PodsMin
            CPUStep := r.ParseQuantityFromString r.flags.CPUStep
            MemoryStep := r.ParseQuantityFromString r.flags.MemoryStep
            PodsStep := r.ParseQuantityFromString r.flags.PodsStep } } }

/-- The record the mutate function hands to `SetOwnerReference` (lines 223-246), given the
serialized payload `raw`. -/
def mergedRecord (r : NodeReconciler) (shouldCreate : Bool) (nodeIdentity : NodeIdentity)
    (flavor : Flavor) (raw : Bytes) : Flavor :=
  { Name := flavor.Name
    Namespace := flavor.Namespace
    OwnerReferences := flavor.OwnerReferences
    Spec :=
      { ProviderID := nodeIdentity.NodeID
        FlavorType := { TypeIdentifier := TypeK8Slice, TypeData := { Raw := raw } }
        Owner := nodeIdentity
        Price := if shouldCreate then
            { Amount := r.flags.AMOUNT, Currency := r.flags.CURRENCY, Period := r.flags.PERIOD }
          else flavor.Spec.Price
        Availability := if shouldCreate then true else flavor.Spec.Availability
        NetworkPropertyType := if shouldCreate then "networkProperty"
          else flavor.Spec.NetworkPropertyType
        Location := if shouldCreate then some
            { Latitude := "10"
              Longitude := "58"
              Country := "Italy"
              City := "Turin"
              AdditionalNotes := "None" }
          else flavor.Spec.Location } }

/-- The call `json.Marshal(k8sSliceType)` with its error return. -/
def marshalPayload (r : NodeReconciler) (k : K8Slice) : Result Bytes :=
  match r.Marshal k with
  | .error marshalErr => .error marshalErr
  | .ok b => .ok b

/-- The owner reference `SetOwnerReference` upserts for a node owner of kind `gvk`. -/
def ownerRefOf (gvk : GroupVersionKind) (owner : Node) : OwnerReference :=
  { APIVersion := gvk.apiVersion
    Kind := gvk.Kind
    UID := owner.UID
    Name := owner.Name }

/-- The record the merge returns when each of its steps succeeds. -/
def mergeResult (r : NodeReconciler) (flavor : Option Flavor) (nodeIdentity : NodeIdentity)
    (owner : Node) (raw : Bytes) (gvk : GroupVersionKind) : Flavor :=
  { mergedRecord r flavor.isNone nodeIdentity
      (createOrUpdateFlavor.object r flavor nodeIdentity) raw with
    OwnerReferences := upsertOwnerRef (ownerRefOf gvk owner)
      (createOrUpdateFlavor.object r flavor nodeIdentity).OwnerReferences }

/-- The offer has an owner reference of kind `Node`. -/
def hasNodeOwner (flavor : Flavor) : Bool :=
  flavor.OwnerReferences.any fun ref => ref.Kind == "Node"

/-- A sample offer owned by the node `worker-1`, with the given name and raw payload. -/
def sampleFlavor (name : String) (raw : Bytes) : Flavor :=
  { Name := name
    Namespace := "fluidos"
    OwnerReferences :=
      [ { APIVersion := "apps/v1", Kind := "Deployment", Name := "worker-1", UID := "uid-7" }
      , { APIVersion := "v1", Kind := "Node", Name := "worker-1", UID := "uid-1" } ]
    Spec :=
      { ProviderID := "node-1"
        FlavorType := { TypeIdentifier := "K8Slice", TypeData := { Raw := raw } }
        Owner := { Domain := "fluidos.eu", NodeID := "node-1" }
        Price := { Amount := "42", Currency := "USD", Period := "monthly" }
        Availability := false
        NetworkPropertyType := "custom"
        Location := some
          { Latitude := "48"
            Longitude := "2"
            Country := "France"
            City := "Paris"
            AdditionalNotes := "edited" } } }

/-- A `NodeInfo` with the architecture and GPU of `sampleNodeInfo` and another capacity. -/
def sampleNodeInfoLater : NodeInfo :=
  { sampleNodeInfo with
    ResourceMetrics :=
      { sampleNodeInfo.ResourceMetrics with
        CPUAvailable := ⟨1000000000⟩
        MemoryAvailable := ⟨2000000000⟩
        PodsAvailable := ⟨3000000000⟩
        EphemeralStorage := ⟨7000000000⟩ } }

/-- The identity of the sample FLUIDOS node. -/
def sampleIdentity : NodeIdentity := { Domain := "fluidos.eu", NodeID := "node-1" }

/-! ## GPU conversions (`pkg/utils/models/flavor-k8slice-models.go`, `pkg/utils/parseutil`) -/

/-- The struct `models.GpuCharacteristics`. -/
structure GpuCharacteristics where
  Vendor : String := ""
  Model : String := ""
  Count : Int := 0
  Tier : String := ""
  MultiInstance : Bool := false
  Shared : Bool := false
  SharingStrategy : String := ""
  Dedicated : Bool := false
  Interruptible : Bool := false
  NetworkBandwidth : Quantity := {}
  NetworkLatencyMs : Int := 0
  NetworkTier : String := ""
  TrainingScore : Float64 := {}
  InferenceScore : Float64 := {}
  HPCScore : Float64 := {}
  GraphicsScore : Float64 := {}
  Architecture : String := ""
  Interconnect : String := ""
  InterconnectBandwidth : Quantity := {}
  Cores : Quantity := {}
  Memory : Quantity := {}
  ComputeCapability : String := ""
  ClockSpeed : Quantity := {}
  FP32TFlops : Float64 := {}
  Topology : String := ""
  MultiGPUEfficiency : String := ""
  Region : String := ""
  Zone : String := ""
  HourlyRate : Float64 := {}
  Provider : String := ""
  PreEmptible : Bool := false
  deriving DecidableEq, Repr

/-- The function `parseutil.ToNodeCoreGPU`; the pointer returned is never nil. -/
def ToNodeCoreGPU (input : GpuCharacteristics) : GPU :=
  { Model := input.Model
    Cores := input.Cores
    Memory := input.Memory
    Vendor := input.Vendor
    Tier := input.Tier
    Count := input.Count
    MultiInstance := input.MultiInstance
    Shared := input.Shared
    SharingStrategy := input.SharingStrategy
    Dedicated := input.Dedicated
    Interruptible := input.Interruptible
    NetworkBandwidth := input.NetworkBandwidth
    NetworkLatencyMs := input.NetworkLatencyMs
    NetworkTier := input.NetworkTier
    TrainingScore := input.TrainingScore
    InferenceScore := input.InferenceScore
    HPCScore := input.HPCScore
    GraphicsScore := input.GraphicsScore
    Architecture := input.Architecture
    Interconnect := input.Interconnect
    InterconnectBandwidth := input.InterconnectBandwidth
    CoresTotal := input.Cores
    ComputeCapability := input.ComputeCapability
    ClockSpeed := input.ClockSpeed
    FP32TFlops := input.FP32TFlops
    Topology := input.Topology
    MultiGPUEfficiency := input.MultiGPUEfficiency
    Region := input.Region
    Zone := input.Zone
    HourlyRate := input.HourlyRate
    Provider := input.Provider
    PreEmptible := input.PreEmptible }

/-- The function `parseutil.ToGpuCharacteristics`; the pointer returned is never nil. -/
def ToGpuCharacteristics (input : GPU) : GpuCharacteristics :=
  { Vendor := input.Vendor
    Model := input.Model
    Count := input.Count
    Tier := input.Tier
    MultiInstance := input.MultiInstance
    Shared := input.Shared
    SharingStrategy := input.SharingStrategy
    Dedicated := input.Dedicated
    Interruptible := input.Interruptible
    NetworkBandwidth := input.NetworkBandwidth
    NetworkLatencyMs := input.NetworkLatencyMs
    NetworkTier := input.NetworkTier
    TrainingScore := input.TrainingScore
    InferenceScore := input.InferenceScore
    HPCScore := input.HPCScore
    GraphicsScore := input.GraphicsScore
    Architecture := input.Architecture
    Interconnect := input.Interconnect
    InterconnectBandwidth := input.InterconnectBandwidth
    Cores := input.CoresTotal
    Memory := input.Memory
    ComputeCapability := input.ComputeCapability
    ClockSpeed := input.ClockSpeed
    FP32TFlops := input.FP32TFlops
    Topology := input.Topology
    MultiGPUEfficiency := input.MultiGPUEfficiency
    Region := input.Region
    Zone := input.Zone
    HourlyRate := input.HourlyRate
    Provider := input.Provider
    PreEmptible := input.PreEmptible }

/-! ## More sample inputs -/

/-- An annotation map with the two location keys. -/
def locationEntries (zone region : String) : String → Option String := fun k =>
  if k = "location.fluidos.eu/zone" then some zone
  else if k = "location.fluidos.eu/region" then some region
  else none

/-- The empty annotation map. -/
def noEntries : String → Option String := fun _ => none

/-- The sample reconciler with auto-discovery disabled and a webhook server not yet started. -/
def sampleReconcilerDisabled : NodeReconciler :=
  { sampleReconciler (sampleNode none) sampleMetrics [] with
    EnableAutoDiscovery := false
    WebhookServer := some (some "webhook server has not been started yet") }

/-- The sample reconciler with a webhook server not yet started. -/
def sampleReconcilerNotReady : NodeReconciler :=
  { sampleReconciler (sampleNode none) sampleMetrics [] with
    WebhookServer := some (some "webhook server has not been started yet") }

/-- The sample reconciler whose node read reports that the node does not exist. -/
def sampleReconcilerNoNode : NodeReconciler :=
  { sampleReconciler (sampleNode none) sampleMetrics [] with
    GetNode := fun _ => .error { IsNotFound := true, msg := "nodes \"worker-1\" not found" } }

/-- The sample reconciler whose persist step fails with a conflict. -/
def sampleReconcilerConflict : NodeReconciler :=
  { sampleReconciler (sampleNode none) sampleMetrics [] with
    CreateOrUpdate := fun _ _ =>
      .error "the object has been modified; please apply your changes to the latest version" }

/-- The sample reconciler whose persist step succeeds. -/
def sampleReconcilerStored : NodeReconciler :=
  { sampleReconciler (sampleNode none) sampleMetrics [] with
    CreateOrUpdate := fun _ _ => .ok () }

/-- The five annotation keys read with `strconv.ParseBool`. -/
def booleanKeys : List String :=
  [ "nvidia.fluidos.eu/mig-capable"
  , "gpu.fluidos.eu/sharing-capable"
  , "gpu.fluidos.eu/interruptible"
  , "gpu.fluidos.eu/dedicated"
  , "provider.fluidos.eu/preemptible" ]

/-- An annotation map with two entries. -/
def twoEntries (key value otherKey otherValue : String) : String → Option String := fun k =>
  if k = key then some value
  else if k = otherKey then some otherValue
  else none

/-! ## Lemmas on `Result` -/

@[simp] theorem Result.ok_bind {α β : Type} (v : α) (f : α → Result β) :
    (Result.ok v >>= f) = f v := rfl

@[simp] theorem Result.panic_bind {α β : Type} (m : String) (f : α → Result β) :
    (Result.panic m >>= f) = Result.panic m := rfl

@[simp] theorem Result.error_bind {α β : Type} (e : Error) (f : α → Result β) :
    (Result.error e >>= f) = Result.error e := rfl

@[simp] theorem Result.pure_eq_ok {α : Type} (v : α) : (pure v : Result α) = Result.ok v := rfl

theorem Result.bind_assoc {α β γ : Type} (x : Result α) (f : α → Result β)
    (g : β → Result γ) : (x >>= f) >>= g = x >>= fun a => f a >>= g := by
  cases x <;> rfl

theorem Result.bind_congr {α β : Type} (x : Result α) (f g : α → Result β)
    (h : ∀ a, f a = g a) : (x >>= f) = (x >>= g) := by
  cases x <;> simp [h]

/-! ## The scan equals its closed form -/

theorem whenFound_apply {β : Type} (f : GPUMetrics → β) (ann : String → Option String)
    (key : String) (assign : String → GPUMetrics → GPUMetrics) (g : GPUMetrics) :
    f (whenFound ann key assign g) = foundOr ann key (fun v => f (assign v g)) (f g) := by
  unfold whenFound foundOr
  cases ann key <;> rfl

theorem foundOr_const {β : Type} (ann : String → Option String) (key : String) (b : β) :
    foundOr ann key (fun _ => b) b = b := by
  unfold foundOr
  cases ann key <;> rfl

theorem whenFoundMustParse_eq (lib : Parsers) (ann : String → Option String) (key : String)
    (assign : Quantity → GPUMetrics → GPUMetrics) (g : GPUMetrics) :
    whenFoundMustParse lib ann key assign g =
      quantityAt lib ann key >>= fun oq => Result.ok (whenSome oq assign g) := by
  unfold whenFoundMustParse quantityAt MustParse whenSome
  cases ann key with
  | none => rfl
  | some v => cases h : lib.ParseQuantity v <;> simp [h]

theorem whenSome_apply {β : Type} (f : GPUMetrics → β) (oq : Option Quantity)
    (assign : Quantity → GPUMetrics → GPUMetrics) (g : GPUMetrics) :
    f (whenSome oq assign g) = someOr oq (fun qty => f (assign qty g)) (f g) := by
  cases oq <;> rfl

theorem someOr_const {β : Type} (oq : Option Quantity) (b : β) :
    someOr oq (fun _ => b) b = b := by
  cases oq <;> rfl

/-- The annotation scan computes its closed form: the five quantity-typed keys are read in
source order (the first rejected value panics) and every field of the GPU metrics is the
function of the annotation map given by `gpuMetricsOf`. -/
theorem forgeResourceMetrics_eq (lib : Parsers) (nodeMetrics : NodeMetrics) (node : Node) :
    forgeResourceMetrics lib nodeMetrics node =
      quantityAt lib (annotationsOf node) "gpu.fluidos.eu/memory-per-gpu" >>= fun mem =>
      quantityAt lib (annotationsOf node) "gpu.fluidos.eu/interconnect-bandwidth-gbps" >>= fun ib =>
      quantityAt lib (annotationsOf node) "gpu.fluidos.eu/cores" >>= fun cores =>
      quantityAt lib (annotationsOf node) "gpu.fluidos.eu/clock-speed" >>= fun clock =>
      quantityAt lib (annotationsOf node) "network.fluidos.eu/bandwidth-gbps" >>= fun nb =>
      Result.ok (resourceMetricsOf nodeMetrics node
        (gpuMetricsOf lib (annotationsOf node) mem ib cores clock nb)) := by
  unfold forgeResourceMetrics
  have hann : (match node.Annotations with
      | none => fun _ => none
      | some a => a) = annotationsOf node := rfl
  simp only [hann, whenFoundMustParse_eq, Result.bind_assoc, Result.ok_bind, Result.pure_eq_ok]
  refine Result.bind_congr _ _ _ fun mem => ?_
  refine Result.bind_congr _ _ _ fun ib => ?_
  refine Result.bind_congr _ _ _ fun cores => ?_
  refine Result.bind_congr _ _ _ fun clock => ?_
  refine Result.bind_congr _ _ _ fun nb => ?_
  unfold resourceMetricsOf
  congr 2
  generalize annotationsOf node = ann
  ext : 1 <;>
    simp only [gpuMetricsOf, foundOr_const, someOr_const,
    whenFound_apply (fun g : GPUMetrics => g.MultiInstance),
    whenSome_apply (fun g : GPUMetrics => g.MultiInstance),
    whenFound_apply (fun g : GPUMetrics => g.Shared),
    whenSome_apply (fun g : GPUMetrics => g.Shared),
    whenFound_apply (fun g : GPUMetrics => g.SharingStrategy),
    whenSome_apply (fun g : GPUMetrics => g.SharingStrategy),
    whenFound_apply (fun g : GPUMetrics => g.Dedicated),
    whenSome_apply (fun g : GPUMetrics => g.Dedicated),
    whenFound_apply (fun g : GPUMetrics => g.Interruptible),
    whenSome_apply (fun g : GPUMetrics => g.Interruptible),
    whenFound_apply (fun g : GPUMetrics => g.NetworkBandwidth),
    whenSome_apply (fun g : GPUMetrics => g.NetworkBandwidth),
    whenFound_apply (fun g : GPUMetrics => g.NetworkLatencyMs),
    whenSome_apply (fun g : GPUMetrics => g.NetworkLatencyMs),
    whenFound_apply (fun g : GPUMetrics => g.NetworkTier),
    whenSome_apply (fun g : GPUMetrics => g.NetworkTier),
    whenFound_apply (fun g : GPUMetrics => g.TrainingScore),
    whenSome_apply (fun g : GPUMetrics => g.TrainingScore),
    whenFound_apply (fun g : GPUMetrics => g.InferenceScore),
    whenSome_apply (fun g : GPUMetrics => g.InferenceScore),
    whenFound_apply (fun g : GPUMetrics => g.HPCScore),
    whenSome_apply (fun g : GPUMetrics => g.HPCScore),
    whenFound_apply (fun g : GPUMetrics => g.GraphicsScore),
    whenSome_apply (fun g : GPUMetrics => g.GraphicsScore),
    whenFound_apply (fun g : GPUMetrics => g.Architecture),
    whenSome_apply (fun g : GPUMetrics => g.Architecture),
    whenFound_apply (fun g : GPUMetrics => g.Interconnect),
    whenSome_apply (fun g : GPUMetrics => g.Interconnect),
    whenFound_apply (fun g : GPUMetrics => g.InterconnectBandwidth),
    whenSome_apply (fun g : GPUMetrics => g.InterconnectBandwidth),
    whenFound_apply (fun g : GPUMetrics => g.CoresTotal),
    whenSome_apply (fun g : GPUMetrics => g.CoresTotal),
    whenFound_apply (fun g : GPUMetrics => g.ComputeCapability),
    whenSome_apply (fun g : GPUMetrics => g.ComputeCapability),
    whenFound_apply (fun g : GPUMetrics => g.ClockSpeed),
    whenSome_apply (fun g : GPUMetrics => g.ClockSpeed),
    whenFound_apply (fun g : GPUMetrics => g.FP32TFlops),
    whenSome_apply (fun g : GPUMetrics => g.FP32TFlops),
    whenFound_apply (fun g : GPUMetrics => g.Topology),
    whenSome_apply (fun g : GPUMetrics => g.Topology),
    whenFound_apply (fun g : GPUMetrics => g.MultiGPUEfficiency),
    whenSome_apply (fun g : GPUMetrics => g.MultiGPUEfficiency),
    whenFound_apply (fun g : GPUMetrics => g.Region),
    whenSome_apply (fun g : GPUMetrics => g.Region),
    whenFound_apply (fun g : GPUMetrics => g.Zone),
    whenSome_apply (fun g : GPUMetrics => g.Zone),
    whenFound_apply (fun g : GPUMetrics => g.HourlyRate),
    whenSome_apply (fun g : GPUMetrics => g.HourlyRate),
    whenFound_apply (fun g : GPUMetrics => g.Provider),
    whenSome_apply (fun g : GPUMetrics => g.Provider),
    whenFound_apply (fun g : GPUMetrics => g.PreEmptible),
    whenSome_apply (fun g : GPUMetrics => g.PreEmptible),
    whenFound_apply (fun g : GPUMetrics => g.Vendor),
    whenSome_apply (fun g : GPUMetrics => g.Vendor),
    whenFound_apply (fun g : GPUMetrics => g.Model),
    whenSome_apply (fun g : GPUMetrics => g.Model),
    whenFound_apply (fun g : GPUMetrics => g.Count),
    whenSome_apply (fun g : GPUMetrics => g.Count),
    whenFound_apply (fun g : GPUMetrics => g.MemoryTotal),
    whenSome_apply (fun g : GPUMetrics => g.MemoryTotal),
    whenFound_apply (fun g : GPUMetrics => g.Tier),
    whenSome_apply (fun g : GPUMetrics => g.Tier),
    whenFound_apply (fun g : GPUMetrics => g.CoresAvailable),
    whenSome_apply (fun g : GPUMetrics => g.CoresAvailable),
    whenFound_apply (fun g : GPUMetrics => g.MemoryAvailable),
    whenSome_apply (fun g : GPUMetrics => g.MemoryAvailable),
    whenFound_apply (fun g : GPUMetrics => g.CountAvailable),
    whenSome_apply (fun g : GPUMetrics => g.CountAvailable)]

theorem quantityAt_of_parse (lib : Parsers) (ann : String → Option String) (key : String)
    (h : ∀ v, ann key = some v → ∃ q, lib.ParseQuantity v = .ok q) :
    quantityAt lib ann key = .ok (parsedAt lib ann key) := by
  unfold quantityAt parsedAt
  cases hk : ann key with
  | none => rfl
  | some v =>
    obtain ⟨q, hq⟩ := h v hk
    simp [hq]

theorem quantityAt_of_reject (lib : Parsers) (ann : String → Option String) (key v : String)
    (e : Error) (hk : ann key = some v) (he : lib.ParseQuantity v = .error e) :
    quantityAt lib ann key = .panic e := by
  unfold quantityAt
  simp [hk, he]

theorem quantityAt_bind_panic {β : Type} (lib : Parsers) (ann : String → Option String)
    (key : String) (f : Option Quantity → Result β) (h : ∀ oq, ∃ m, f oq = .panic m) :
    ∃ m, (quantityAt lib ann key >>= f) = .panic m := by
  unfold quantityAt
  cases ann key with
  | none => exact h none
  | some v =>
    cases hp : lib.ParseQuantity v with
    | ok q => simpa [hp] using h (some q)
    | error e => exact ⟨e, by simp [hp]⟩

theorem quantityAt_bind_not_error {β : Type} (lib : Parsers) (ann : String → Option String)
    (key : String) (f : Option Quantity → Result β) (h : ∀ oq, (f oq).isError = false) :
    (quantityAt lib ann key >>= f).isError = false := by
  unfold quantityAt
  cases ann key with
  | none => exact h none
  | some v =>
    cases hp : lib.ParseQuantity v with
    | ok q => simpa [hp] using h (some q)
    | error e => simp [hp, Result.isError]

/-- The scan returns when every quantity-typed key present parses. -/
theorem forgeResourceMetrics_of_parse (lib : Parsers) (nodeMetrics : NodeMetrics) (node : Node)
    (h : quantitiesParse lib (annotationsOf node)) :
    forgeResourceMetrics lib nodeMetrics node =
      .ok (resourceMetricsOf nodeMetrics node
        (gpuMetricsOf lib (annotationsOf node)
          (parsedAt lib (annotationsOf node) "gpu.fluidos.eu/memory-per-gpu")
          (parsedAt lib (annotationsOf node) "gpu.fluidos.eu/interconnect-bandwidth-gbps")
          (parsedAt lib (annotationsOf node) "gpu.fluidos.eu/cores")
          (parsedAt lib (annotationsOf node) "gpu.fluidos.eu/clock-speed")
          (parsedAt lib (annotationsOf node) "network.fluidos.eu/bandwidth-gbps"))) := by
  rw [forgeResourceMetrics_eq]
  rw [quantityAt_of_parse lib _ _ (h _ (by simp [quantityKeys])),
    quantityAt_of_parse lib _ _ (h _ (by simp [quantityKeys])),
    quantityAt_of_parse lib _ _ (h _ (by simp [quantityKeys])),
    quantityAt_of_parse lib _ _ (h _ (by simp [quantityKeys])),
    quantityAt_of_parse lib _ _ (h _ (by simp [quantityKeys]))]
  rfl

/-- The scan panics when a quantity-typed key holds a string `resource.ParseQuantity`
rejects. -/
theorem forgeResourceMetrics_of_reject (lib : Parsers) (nodeMetrics : NodeMetrics) (node : Node)
    (key v : String) (e : Error) (hkey : key ∈ quantityKeys)
    (hk : annotationsOf node key = some v) (he : lib.ParseQuantity v = .error e) :
    ∃ m, forgeResourceMetrics lib nodeMetrics node = .panic m := by
  rw [forgeResourceMetrics_eq]
  have hp := quantityAt_of_reject lib (annotationsOf node) key v e hk he
  simp only [quantityKeys, List.mem_cons, List.mem_singleton, List.not_mem_nil, or_false]
    at hkey
  rcases hkey with rfl | rfl | rfl | rfl | rfl
  · exact ⟨e, by rw [hp]; rfl⟩
  · refine quantityAt_bind_panic _ _ _ _ fun _ => ?_
    exact ⟨e, by rw [hp]; rfl⟩
  · refine quantityAt_bind_panic _ _ _ _ fun _ => ?_
    refine quantityAt_bind_panic _ _ _ _ fun _ => ?_
    exact ⟨e, by rw [hp]; rfl⟩
  · refine quantityAt_bind_panic _ _ _ _ fun _ => ?_
    refine quantityAt_bind_panic _ _ _ _ fun _ => ?_
    refine quantityAt_bind_panic _ _ _ _ fun _ => ?_
    exact ⟨e, by rw [hp]; rfl⟩
  · refine quantityAt_bind_panic _ _ _ _ fun _ => ?_
    refine quantityAt_bind_panic _ _ _ _ fun _ => ?_
    refine quantityAt_bind_panic _ _ _ _ fun _ => ?_
    refine quantityAt_bind_panic _ _ _ _ fun _ => ?_
    exact ⟨e, by rw [hp]; rfl⟩

/-- The scan never returns an error value. -/
theorem forgeResourceMetrics_not_error (lib : Parsers) (nodeMetrics : NodeMetrics)
    (node : Node) : (forgeResourceMetrics lib nodeMetrics node).isError = false := by
  rw [forgeResourceMetrics_eq]
  refine quantityAt_bind_not_error _ _ _ _ fun _ => ?_
  refine quantityAt_bind_not_error _ _ _ _ fun _ => ?_
  refine quantityAt_bind_not_error _ _ _ _ fun _ => ?_
  refine quantityAt_bind_not_error _ _ _ _ fun _ => ?_
  refine quantityAt_bind_not_error _ _ _ _ fun _ => ?_
  rfl

theorem GetNodeInfos_of_name_eq (lib : Parsers) (node : Node) (nodeMetrics : NodeMetrics)
    (h : node.Name = nodeMetrics.Name) :
    GetNodeInfos lib node nodeMetrics =
      forgeResourceMetrics lib nodeMetrics node >>= fun m => .ok (forgeNodeInfo node m) := by
  unfold GetNodeInfos
  simp [h]

theorem GetNodeInfos_of_name_ne (lib : Parsers) (node : Node) (nodeMetrics : NodeMetrics)
    (h : node.Name ≠ nodeMetrics.Name) :
    GetNodeInfos lib node nodeMetrics = .error "node and node metrics do not match" := by
  unfold GetNodeInfos
  simp [h]

/-! ## Arithmetic of the aggregation loop and of `strconv.ParseInt` -/

theorem addRepeated_value (count : Int) (qty computed : Quantity) :
    (addRepeated count qty computed).value = computed.value + count.toNat * qty.value := by
  unfold addRepeated
  generalize count.toNat = n
  induction n generalizing computed with
  | zero => simp
  | succ n ih =>
    rw [Function.iterate_succ_apply, ih]
    simp only [Quantity.Add, Nat.cast_succ]
    ring

theorem addRepeated_of_nonpos (count : Int) (qty computed : Quantity) (h : count ≤ 0) :
    addRepeated count qty computed = computed := by
  unfold addRepeated
  rw [Int.toNat_eq_zero.mpr h]
  rfl

theorem ParseInt_syntax_value (v : String) (h : (ParseInt v).2 = some .ErrSyntax) :
    (ParseInt v).1 = 0 := by
  unfold ParseInt at h ⊢
  cases hv : v.toList with
  | nil => rfl
  | cons c cs =>
    simp only [hv] at h ⊢
    generalize (if (c == '+') = true ∨ (c == '-') = true then cs else c :: cs) = digits at h ⊢
    rcases hp : ParseUint digits with ⟨un, _ | _ | _⟩
    · simp only [hp] at h
      split_ifs at h <;> simp at h
    · rfl
    · simp only [hp] at h
      split_ifs at h <;> simp at h

/-! ## Claims on `GetNodeInfos` and `forgeResourceMetrics` -/

/-- C6 (amended): for every node and usage snapshot with the same name whose quantity-typed
annotations, when present, are valid resource quantities, `GetNodeInfos` returns a `NodeInfo`
whose totals are the allocatable values, whose available CPU, memory and pods are exactly
allocatable minus used (also when that is negative), and whose ephemeral storage is the usage
value as it is. -/
theorem GetNodeInfos_available (lib : Parsers) (node : Node) (nodeMetrics : NodeMetrics)
    (hname : node.Name = nodeMetrics.Name) (hq : quantitiesParse lib (annotationsOf node)) :
    ∃ nodeInfo, GetNodeInfos lib node nodeMetrics = .ok nodeInfo ∧
      nodeInfo.ResourceMetrics.CPUTotal = node.Status.Allocatable.Cpu ∧
      nodeInfo.ResourceMetrics.MemoryTotal = node.Status.Allocatable.Memory ∧
      nodeInfo.ResourceMetrics.PodsTotal = node.Status.Allocatable.Pods ∧
      nodeInfo.ResourceMetrics.CPUAvailable.value =
        node.Status.Allocatable.Cpu.value - nodeMetrics.Usage.Cpu.value ∧
      nodeInfo.ResourceMetrics.MemoryAvailable.value =
        node.Status.Allocatable.Memory.value - nodeMetrics.Usage.Memory.value ∧
      nodeInfo.ResourceMetrics.PodsAvailable.value =
        node.Status.Allocatable.Pods.value - nodeMetrics.Usage.Pods.value ∧
      nodeInfo.ResourceMetrics.EphemeralStorage = nodeMetrics.Usage.StorageEphemeral := by
  rw [GetNodeInfos_of_name_eq lib node nodeMetrics hname,
    forgeResourceMetrics_of_parse lib nodeMetrics node hq]
  exact ⟨_, rfl, rfl, rfl, rfl, rfl, rfl, rfl, rfl⟩

theorem quantitiesParse_gpuAnnotations :
    quantitiesParse sampleParsers (annotationsOf (sampleNode (some (gpuAnnotations "4" "8" "16")))) := by
  intro key hkey v hv
  simp only [quantityKeys, List.mem_cons, List.mem_singleton, List.not_mem_nil, or_false]
    at hkey
  rcases hkey with rfl | rfl | rfl | rfl | rfl <;>
    simp [annotationsOf, sampleNode, gpuAnnotations] at hv
  · subst hv
    exact ⟨_, rfl⟩
  · subst hv
    exact ⟨_, rfl⟩

/-- Witness of C6: a node with valid GPU annotations whose CPU usage exceeds the allocatable
CPU; the available CPU is negative and the node info is returned. -/
theorem GetNodeInfos_available_witness :
    (sampleNode (some (gpuAnnotations "4" "8" "16"))).Name = sampleMetrics.Name ∧
    ∃ nodeInfo, GetNodeInfos sampleParsers (sampleNode (some (gpuAnnotations "4" "8" "16")))
        sampleMetrics = .ok nodeInfo ∧
      nodeInfo.ResourceMetrics.CPUTotal =
        (sampleNode (some (gpuAnnotations "4" "8" "16"))).Status.Allocatable.Cpu ∧
      nodeInfo.ResourceMetrics.MemoryTotal =
        (sampleNode (some (gpuAnnotations "4" "8" "16"))).Status.Allocatable.Memory ∧
      nodeInfo.ResourceMetrics.PodsTotal =
        (sampleNode (some (gpuAnnotations "4" "8" "16"))).Status.Allocatable.Pods ∧
      nodeInfo.ResourceMetrics.CPUAvailable.value =
        (sampleNode (some (gpuAnnotations "4" "8" "16"))).Status.Allocatable.Cpu.value -
          sampleMetrics.Usage.Cpu.value ∧
      nodeInfo.ResourceMetrics.MemoryAvailable.value =
        (sampleNode (some (gpuAnnotations "4" "8" "16"))).Status.Allocatable.Memory.value -
          sampleMetrics.Usage.Memory.value ∧
      nodeInfo.ResourceMetrics.PodsAvailable.value =
        (sampleNode (some (gpuAnnotations "4" "8" "16"))).Status.Allocatable.Pods.value -
          sampleMetrics.Usage.Pods.value ∧
      nodeInfo.ResourceMetrics.EphemeralStorage = sampleMetrics.Usage.StorageEphemeral :=
  ⟨rfl, GetNodeInfos_available sampleParsers _ sampleMetrics rfl quantitiesParse_gpuAnnotations⟩

/-- Counterexample to C6 as stated: the node and the usage snapshot have the same name, the
annotation `gpu.fluidos.eu/memory-per-gpu` is not a quantity, and `GetNodeInfos` returns no
`NodeInfo` at all (it panics). -/
theorem GetNodeInfos_available_counterexample :
    (sampleNode (some (singleEntry "gpu.fluidos.eu/memory-per-gpu" "lots"))).Name =
      sampleMetrics.Name ∧
    ¬ ∃ nodeInfo,
      GetNodeInfos sampleParsers
        (sampleNode (some (singleEntry "gpu.fluidos.eu/memory-per-gpu" "lots")))
        sampleMetrics = .ok nodeInfo ∧
      nodeInfo.ResourceMetrics.CPUAvailable.value =
        (sampleNode (some (singleEntry "gpu.fluidos.eu/memory-per-gpu" "lots"))
          ).Status.Allocatable.Cpu.value - sampleMetrics.Usage.Cpu.value := by
  refine ⟨rfl, ?_⟩
  rintro ⟨nodeInfo, h, -⟩
  have hp : GetNodeInfos sampleParsers
      (sampleNode (some (singleEntry "gpu.fluidos.eu/memory-per-gpu" "lots")))
      sampleMetrics = .panic "quantities must match the regular expression" := by decide
  rw [hp] at h
  cases h

/-- C7 (amended): `GetNodeInfos` returns an error, and no `NodeInfo`, if and only if the two
names differ; when the names are equal and every quantity-typed annotation present is a valid
resource quantity, it returns a `NodeInfo` with the UID, name, architecture and operating
system of the node, and no error. -/
theorem GetNodeInfos_identity (lib : Parsers) (node : Node) (nodeMetrics : NodeMetrics) :
    ((∃ err, GetNodeInfos lib node nodeMetrics = .error err) ↔ node.Name ≠ nodeMetrics.Name) ∧
    (node.Name = nodeMetrics.Name → quantitiesParse lib (annotationsOf node) →
      ∃ nodeInfo, GetNodeInfos lib node nodeMetrics = .ok nodeInfo ∧
        nodeInfo.UID = node.UID ∧ nodeInfo.Name = node.Name ∧
        nodeInfo.Architecture = node.Status.NodeInfo.Architecture ∧
        nodeInfo.OperatingSystem = node.Status.NodeInfo.OperatingSystem) := by
  constructor
  · constructor
    · rintro ⟨err, h⟩ hname
      rw [GetNodeInfos_of_name_eq lib node nodeMetrics hname] at h
      have hne := forgeResourceMetrics_not_error lib nodeMetrics node
      cases hf : forgeResourceMetrics lib nodeMetrics node with
      | ok v => rw [hf] at h; cases h
      | error e => rw [hf] at hne; cases hne
      | panic m => rw [hf] at h; cases h
    · intro hname
      exact ⟨_, GetNodeInfos_of_name_ne lib node nodeMetrics hname⟩
  · intro hname hq
    rw [GetNodeInfos_of_name_eq lib node nodeMetrics hname,
      forgeResourceMetrics_of_parse lib nodeMetrics node hq]
    exact ⟨_, rfl, rfl, rfl, rfl, rfl⟩

/-- Witness of C7: the sample node with valid GPU annotations and its usage snapshot. -/
theorem GetNodeInfos_identity_witness :
    ∃ nodeInfo, GetNodeInfos sampleParsers (sampleNode (some (gpuAnnotations "4" "8" "16")))
        sampleMetrics = .ok nodeInfo ∧
      nodeInfo.UID = "uid-1" ∧ nodeInfo.Name = "worker-1" ∧
      nodeInfo.Architecture = "amd64" ∧ nodeInfo.OperatingSystem = "linux" :=
  (GetNodeInfos_identity sampleParsers (sampleNode (some (gpuAnnotations "4" "8" "16")))
    sampleMetrics).2 rfl quantitiesParse_gpuAnnotations

/-- Counterexample to C7 as stated: the names are equal, the annotation
`gpu.fluidos.eu/clock-speed` is not a quantity, and `GetNodeInfos` returns neither a `NodeInfo`
nor an error. -/
theorem GetNodeInfos_identity_counterexample :
    (sampleNode (some (singleEntry "gpu.fluidos.eu/clock-speed" "fast"))).Name =
      sampleMetrics.Name ∧
    ¬ ∃ nodeInfo,
      GetNodeInfos sampleParsers
        (sampleNode (some (singleEntry "gpu.fluidos.eu/clock-speed" "fast")))
        sampleMetrics = .ok nodeInfo := by
  refine ⟨rfl, ?_⟩
  rintro ⟨nodeInfo, h⟩
  have hp : GetNodeInfos sampleParsers
      (sampleNode (some (singleEntry "gpu.fluidos.eu/clock-speed" "fast")))
      sampleMetrics = .panic "quantities must match the regular expression" := by decide
  rw [hp] at h
  cases h

/-- C8 (amended): when every quantity-typed annotation present is a valid resource quantity,
`forgeResourceMetrics` returns metrics in which, for a GPU count parsed as `n ≥ 0`, the GPU
`MemoryTotal` is `n` times the memory per GPU and `CoresTotal` is `n` times the cores; when the
count key is absent, or its value is zero or negative, both aggregates are the zero quantity. -/
theorem forgeResourceMetrics_aggregates (lib : Parsers) (nodeMetrics : NodeMetrics)
    (node : Node) (hq : quantitiesParse lib (annotationsOf node)) :
    ∃ metrics, forgeResourceMetrics lib nodeMetrics node = .ok metrics ∧
      (∀ c n, annotationsOf node "gpu.fluidos.eu/count" = some c → Atoi c = (n, none) →
        0 ≤ n →
        (∀ m q, annotationsOf node "gpu.fluidos.eu/memory-per-gpu" = some m →
          lib.ParseQuantity m = .ok q → metrics.GPU.MemoryTotal.value = n * q.value) ∧
        (∀ m q, annotationsOf node "gpu.fluidos.eu/cores" = some m →
          lib.ParseQuantity m = .ok q → metrics.GPU.CoresTotal.value = n * q.value)) ∧
      ((annotationsOf node "gpu.fluidos.eu/count" = none ∨
          ∃ c, annotationsOf node "gpu.fluidos.eu/count" = some c ∧ (Atoi c).1 ≤ 0) →
        metrics.GPU.MemoryTotal = Quantity.zero ∧ metrics.GPU.CoresTotal = Quantity.zero) := by
  refine ⟨_, forgeResourceMetrics_of_parse lib nodeMetrics node hq, ?_, ?_⟩
  · intro c n hc hn hn0
    have hcount : foundOr (annotationsOf node) "gpu.fluidos.eu/count" (fun v => (Atoi v).1) 0
        = n := by
      simp [foundOr, hc, hn]
    constructor
    · intro m q hm hp
      simp only [resourceMetricsOf, gpuMetricsOf, parsedAt, hm, hp, someOr, hcount,
        addRepeated_value, Quantity.zero, zero_add]
      rw [Int.toNat_of_nonneg hn0]
    · intro m q hm hp
      simp only [resourceMetricsOf, gpuMetricsOf, parsedAt, hm, hp, someOr, hcount,
        addRepeated_value, Quantity.zero, zero_add]
      rw [Int.toNat_of_nonneg hn0]
  · intro h
    have hcount : foundOr (annotationsOf node) "gpu.fluidos.eu/count" (fun v => (Atoi v).1) 0
        ≤ 0 := by
      rcases h with h | ⟨c, hc, hle⟩
      · simp [foundOr, h]
      · simpa [foundOr, hc] using hle
    constructor
    · simp only [resourceMetricsOf, gpuMetricsOf, someOr]
      cases parsedAt lib (annotationsOf node) "gpu.fluidos.eu/memory-per-gpu" with
      | none => rfl
      | some q => exact addRepeated_of_nonpos _ _ _ hcount
    · simp only [resourceMetricsOf, gpuMetricsOf, someOr]
      cases parsedAt lib (annotationsOf node) "gpu.fluidos.eu/cores" with
      | none => rfl
      | some q => exact addRepeated_of_nonpos _ _ _ hcount

/-- Witness of C8: count 4, memory per GPU 8 and 16 cores give the aggregates 32 and 64. -/
theorem forgeResourceMetrics_aggregates_witness :
    ∃ metrics, forgeResourceMetrics sampleParsers sampleMetrics
        (sampleNode (some (gpuAnnotations "4" "8" "16"))) = .ok metrics ∧
      metrics.GPU.MemoryTotal.value = 4 * 8000000000 ∧
      metrics.GPU.CoresTotal.value = 4 * 16000000000 := by
  obtain ⟨metrics, h, hn, -⟩ := forgeResourceMetrics_aggregates sampleParsers sampleMetrics
    (sampleNode (some (gpuAnnotations "4" "8" "16"))) quantitiesParse_gpuAnnotations
  have h4 := hn "4" 4 rfl (by decide) (by decide)
  exact ⟨metrics, h, h4.1 "8" ⟨8000000000⟩ rfl rfl, h4.2 "16" ⟨16000000000⟩ rfl rfl⟩

/-- Counterexample to C8 as stated: the count `-1` is parsed, the per-unit quantities are valid
and the stored memory aggregate is zero, not `-1` times the memory per GPU; and with a valid
count and valid per-unit quantities but a malformed clock speed nothing is stored at all. -/
theorem forgeResourceMetrics_aggregates_counterexample :
    (Atoi "-1" = (-1, none) ∧
      sampleParsers.ParseQuantity "8" = .ok ⟨8000000000⟩ ∧
      ∃ metrics, forgeResourceMetrics sampleParsers sampleMetrics
          (sampleNode (some (gpuAnnotations "-1" "8" "16"))) = .ok metrics ∧
        metrics.GPU.MemoryTotal.value = 0 ∧
        metrics.GPU.MemoryTotal.value ≠ -1 * 8000000000) ∧
    (forgeResourceMetrics sampleParsers sampleMetrics
        (sampleNode (some (fun k =>
          if k = "gpu.fluidos.eu/clock-speed" then some "fast"
          else gpuAnnotations "4" "8" "16" k))) =
      .panic "quantities must match the regular expression") := by
  refine ⟨⟨by decide, rfl, _, (by decide : forgeResourceMetrics sampleParsers sampleMetrics
    (sampleNode (some (gpuAnnotations "-1" "8" "16"))) = .ok
      (resourceMetricsOf sampleMetrics (sampleNode none) { Count := -1 })), ?_, ?_⟩, by decide⟩
  · decide
  · decide

theorem Reconcile_of_reads (r : NodeReconciler) (req : NamespacedName) (node : Node)
    (henabled : r.EnableAutoDiscovery = true) (hready : ∀ e, r.WebhookServer ≠ some (some e))
    (hnode : r.GetNode req = .ok node) :
    Reconcile r req =
      Reconcile.withNode r node
        ((if r.WebhookServer.isSome then [Call.StartedChecker] else []) ++ [Call.GetNode req]) := by
  unfold Reconcile
  cases hw : r.WebhookServer with
  | none => simp [henabled, hnode]
  | some o =>
    cases o with
    | none => simp [henabled, hnode]
    | some e => exact absurd hw (hready e)

/-- C9 (amended): when a quantity-typed annotation key is present with a value that is not a
valid resource quantity, characterization aborts with a panic of `resource.MustParse`: neither
`forgeResourceMetrics` nor `GetNodeInfos` (for matching names) nor a pass of `Reconcile` that
reaches `GetNodeInfos` returns anything, be it GPU metrics, a `NodeInfo` or an error value. -/
theorem malformed_quantity_panics (r : NodeReconciler) (req : NamespacedName) (node : Node)
    (nodeMetrics : NodeMetrics) (key v : String) (e : Error)
    (hkey : key ∈ quantityKeys) (hk : annotationsOf node key = some v)
    (he : r.parsers.ParseQuantity v = .error e) (hname : node.Name = nodeMetrics.Name)
    (henabled : r.EnableAutoDiscovery = true) (hready : ∀ e, r.WebhookServer ≠ some (some e))
    (hnode : r.GetNode req = .ok node) (hlabel : LabelSelectorMatches r node.Labels = true)
    (husage : r.GetNodeMetrics node.Name = .ok nodeMetrics) :
    (∃ m, forgeResourceMetrics r.parsers nodeMetrics node = .panic m) ∧
    (∃ m, GetNodeInfos r.parsers node nodeMetrics = .panic m) ∧
    (∃ m, (Reconcile r req).2 = .panic m) := by
  obtain ⟨m, hm⟩ := forgeResourceMetrics_of_reject r.parsers nodeMetrics node key v e hkey hk he
  have hg : GetNodeInfos r.parsers node nodeMetrics = .panic m := by
    rw [GetNodeInfos_of_name_eq r.parsers node nodeMetrics hname, hm]
    rfl
  refine ⟨⟨m, hm⟩, ⟨m, hg⟩, m, ?_⟩
  rw [Reconcile_of_reads r req node henabled hready hnode]
  unfold Reconcile.withNode
  simp [hlabel, husage, hg]

/-- Witness of C9: the sample node with the network bandwidth annotation `wide`. -/
theorem malformed_quantity_panics_witness :
    (∃ m, forgeResourceMetrics sampleParsers sampleMetrics
      (sampleNode (some (singleEntry "network.fluidos.eu/bandwidth-gbps" "wide"))) = .panic m) ∧
    (∃ m, GetNodeInfos sampleParsers
      (sampleNode (some (singleEntry "network.fluidos.eu/bandwidth-gbps" "wide")))
      sampleMetrics = .panic m) ∧
    (∃ m, (Reconcile
      (sampleReconciler
        (sampleNode (some (singleEntry "network.fluidos.eu/bandwidth-gbps" "wide")))
        sampleMetrics [])
      { Name := "worker-1" }).2 = .panic m) :=
  malformed_quantity_panics
    (sampleReconciler
      (sampleNode (some (singleEntry "network.fluidos.eu/bandwidth-gbps" "wide")))
      sampleMetrics [])
    { Name := "worker-1" }
    (sampleNode (some (singleEntry "network.fluidos.eu/bandwidth-gbps" "wide")))
    sampleMetrics "network.fluidos.eu/bandwidth-gbps" "wide"
    "quantities must match the regular expression"
    (by decide) rfl rfl rfl rfl (by intro e h; cases h) rfl rfl rfl

/-- Counterexample to C9 as stated: with the annotation `gpu.fluidos.eu/cores` set to `many`,
the caller `GetNodeInfos` receives no error result (the call panics instead of returning). -/
theorem malformed_quantity_counterexample :
    sampleParsers.ParseQuantity "many" = .error "quantities must match the regular expression" ∧
    ¬ ∃ err, GetNodeInfos sampleParsers
      (sampleNode (some (singleEntry "gpu.fluidos.eu/cores" "many"))) sampleMetrics =
        .error err := by
  refine ⟨rfl, ?_⟩
  rintro ⟨err, h⟩
  have hp : GetNodeInfos sampleParsers
      (sampleNode (some (singleEntry "gpu.fluidos.eu/cores" "many")))
      sampleMetrics = .panic "quantities must match the regular expression" := by decide
  rw [hp] at h
  cases h

theorem Result.bind_eq_ok {α β : Type} (x : Result α) (f : α → Result β) (b : β)
    (h : (x >>= f) = .ok b) : ∃ a, x = .ok a ∧ f a = .ok b := by
  cases x with
  | ok a => exact ⟨a, rfl, h⟩
  | error e => cases h
  | panic m => cases h

/-- Metrics returned by the scan are of the closed form. -/
theorem forgeResourceMetrics_ok_inv (lib : Parsers) (nodeMetrics : NodeMetrics) (node : Node)
    (metrics : ResourceMetrics) (h : forgeResourceMetrics lib nodeMetrics node = .ok metrics) :
    ∃ mem ib cores clock nb, metrics = resourceMetricsOf nodeMetrics node
      (gpuMetricsOf lib (annotationsOf node) mem ib cores clock nb) := by
  rw [forgeResourceMetrics_eq] at h
  obtain ⟨mem, -, h⟩ := Result.bind_eq_ok _ _ _ h
  obtain ⟨ib, -, h⟩ := Result.bind_eq_ok _ _ _ h
  obtain ⟨cores, -, h⟩ := Result.bind_eq_ok _ _ _ h
  obtain ⟨clock, -, h⟩ := Result.bind_eq_ok _ _ _ h
  obtain ⟨nb, -, h⟩ := Result.bind_eq_ok _ _ _ h
  injection h with h
  exact ⟨mem, ib, cores, clock, nb, h.symm⟩

theorem foundOr_remove_ne {β : Type} (ann : String → Option String) (key k : String)
    (f : String → β) (d : β) (h : k ≠ key) :
    foundOr (fun k => if k = key then none else ann k) k f d = foundOr ann k f d := by
  unfold foundOr
  simp [h]

theorem foundOr_remove_self {β : Type} (ann : String → Option String) (key : String)
    (f : String → β) (d : β) :
    foundOr (fun k => if k = key then none else ann k) key f d = d := by
  unfold foundOr
  simp

theorem quantityAt_remove_ne (lib : Parsers) (ann : String → Option String) (key k : String)
    (h : k ≠ key) :
    quantityAt lib (fun k => if k = key then none else ann k) k = quantityAt lib ann k := by
  unfold quantityAt
  simp [h]

theorem annotationsOf_withoutKey (node : Node) (key : String) :
    annotationsOf (withoutKey node key) =
      fun k => if k = key then none else annotationsOf node k := rfl

/-- C10 (amended): when the GPU count key or the network latency key is present with a value
that `strconv` rejects with a syntax error, `forgeResourceMetrics` has the same outcome as for
the map with that key removed; it raises no error, and in the metrics it returns the field is
zero and, for the count, both aggregates are zero. -/
theorem integer_syntax_error_as_absent (lib : Parsers) (nodeMetrics : NodeMetrics) (node : Node)
    (key v : String)
    (hkey : key = "gpu.fluidos.eu/count" ∨ key = "network.fluidos.eu/latency-ms")
    (hk : annotationsOf node key = some v) (hv : (ParseInt v).2 = some .ErrSyntax) :
    forgeResourceMetrics lib nodeMetrics node =
      forgeResourceMetrics lib nodeMetrics (withoutKey node key) ∧
    (forgeResourceMetrics lib nodeMetrics node).isError = false ∧
    ∀ metrics, forgeResourceMetrics lib nodeMetrics node = .ok metrics →
      (key = "gpu.fluidos.eu/count" →
        metrics.GPU.Count = 0 ∧ metrics.GPU.MemoryTotal = Quantity.zero ∧
        metrics.GPU.CoresTotal = Quantity.zero) ∧
      (key = "network.fluidos.eu/latency-ms" → metrics.GPU.NetworkLatencyMs = 0) := by
  have hzero := ParseInt_syntax_value v hv
  have hremoved : forgeResourceMetrics lib nodeMetrics (withoutKey node key) =
      quantityAt lib (annotationsOf node) "gpu.fluidos.eu/memory-per-gpu" >>= fun mem =>
      quantityAt lib (annotationsOf node) "gpu.fluidos.eu/interconnect-bandwidth-gbps" >>= fun ib =>
      quantityAt lib (annotationsOf node) "gpu.fluidos.eu/cores" >>= fun cores =>
      quantityAt lib (annotationsOf node) "gpu.fluidos.eu/clock-speed" >>= fun clock =>
      quantityAt lib (annotationsOf node) "network.fluidos.eu/bandwidth-gbps" >>= fun nb =>
      Result.ok (resourceMetricsOf nodeMetrics node
        (gpuMetricsOf lib (annotationsOf node) mem ib cores clock nb)) := by
    rw [forgeResourceMetrics_eq, annotationsOf_withoutKey]
    rcases hkey with rfl | rfl
    · simp (disch := decide) only [gpuMetricsOf, foundOr_remove_self, foundOr_remove_ne,
        quantityAt_remove_ne]
      simp only [foundOr, hk, Atoi, hzero]
      rfl
    · simp (disch := decide) only [gpuMetricsOf, foundOr_remove_self, foundOr_remove_ne,
        quantityAt_remove_ne]
      simp only [foundOr, hk, hzero]
      rfl
  refine ⟨?_, forgeResourceMetrics_not_error lib nodeMetrics node, ?_⟩
  · rw [hremoved, forgeResourceMetrics_eq]
  · intro metrics hm
    obtain ⟨mem, ib, cores, clock, nb, rfl⟩ := forgeResourceMetrics_ok_inv _ _ _ _ hm
    constructor
    · rintro rfl
      have hcount : foundOr (annotationsOf node) "gpu.fluidos.eu/count"
          (fun v => (Atoi v).1) 0 = 0 := by
        simp only [foundOr, hk, Atoi, hzero]
      refine ⟨hcount, ?_, ?_⟩
      · simp only [resourceMetricsOf, gpuMetricsOf, hcount]
        cases mem <;> rfl
      · simp only [resourceMetricsOf, gpuMetricsOf, hcount]
        cases cores <;> rfl
    · rintro rfl
      simp only [resourceMetricsOf, gpuMetricsOf, foundOr, hk, hzero]

/-- Witness of C10: the GPU count `four` is rejected with a syntax error; the outcome is that
of the map without the count. -/
theorem integer_syntax_error_as_absent_witness :
    forgeResourceMetrics sampleParsers sampleMetrics
        (sampleNode (some (gpuAnnotations "four" "8" "16"))) =
      forgeResourceMetrics sampleParsers sampleMetrics
        (withoutKey (sampleNode (some (gpuAnnotations "four" "8" "16")))
          "gpu.fluidos.eu/count") :=
  (integer_syntax_error_as_absent sampleParsers sampleMetrics
    (sampleNode (some (gpuAnnotations "four" "8" "16"))) "gpu.fluidos.eu/count" "four"
    (Or.inl rfl) rfl (by decide)).1

/-- Counterexample to C10 as stated: the latency `9223372036854775808` fails to parse (out of
range), and the latency stored is the largest 64-bit integer, whereas the map without the key
gives zero. -/
theorem integer_syntax_error_as_absent_counterexample :
    (ParseInt "9223372036854775808").2 = some .ErrRange ∧
    (∃ metrics, forgeResourceMetrics sampleParsers sampleMetrics
        (sampleNode (some (singleEntry "network.fluidos.eu/latency-ms" "9223372036854775808")))
          = .ok metrics ∧ metrics.GPU.NetworkLatencyMs = 9223372036854775807) ∧
    forgeResourceMetrics sampleParsers sampleMetrics
        (sampleNode (some (singleEntry "network.fluidos.eu/latency-ms" "9223372036854775808")))
      ≠ forgeResourceMetrics sampleParsers sampleMetrics
        (withoutKey
          (sampleNode (some (singleEntry "network.fluidos.eu/latency-ms" "9223372036854775808")))
          "network.fluidos.eu/latency-ms") := by
  refine ⟨by decide, ⟨_, (by decide : forgeResourceMetrics sampleParsers sampleMetrics
    (sampleNode (some (singleEntry "network.fluidos.eu/latency-ms" "9223372036854775808")))
      = .ok (resourceMetricsOf sampleMetrics (sampleNode none)
        { NetworkLatencyMs := 9223372036854775807 })), rfl⟩, by decide⟩

/-! ## The merge of `createOrUpdateFlavor` -/

/-- The mutate function equals its closed form: decode, build the payload, serialize, fill the
record, set the owner reference. -/
theorem mutate_eq (r : NodeReconciler) (shouldCreate : Bool) (nodeInfo : NodeInfo)
    (nodeIdentity : NodeIdentity) (owner : Node) (flavor : Flavor) :
    createOrUpdateFlavor.mutate r shouldCreate nodeInfo nodeIdentity owner flavor =
      existingPayload r flavor >>= fun k =>
      marshalPayload r (mergedPayload r shouldCreate nodeInfo k) >>= fun raw =>
      SetOwnerReference r owner (mergedRecord r shouldCreate nodeIdentity flavor raw) := by
  unfold createOrUpdateFlavor.mutate existingPayload marshalPayload
  cases shouldCreate <;>
  · by_cases hraw : flavor.Spec.FlavorType.TypeData.Raw.length > 0
    · simp only [hraw, if_true]
      cases r.Unmarshal flavor.Spec.FlavorType.TypeData.Raw with
      | error e => rfl
      | ok k =>
        simp only [Result.ok_bind, Bool.false_eq_true, if_false, if_true]
        cases hm : r.Marshal _ with
        | error e => simp [mergedPayload, gpuBlockOf, hm]
        | ok b => simp [mergedPayload, gpuBlockOf, hm, mergedRecord]
    · simp only [hraw, if_false, Result.ok_bind, Bool.false_eq_true, if_true]
      cases hm : r.Marshal _ with
      | error e => simp [mergedPayload, gpuBlockOf, hm]
      | ok b => simp [mergedPayload, gpuBlockOf, hm, mergedRecord]

theorem merge_eq (r : NodeReconciler) (flavor : Option Flavor) (nodeInfo : NodeInfo)
    (nodeIdentity : NodeIdentity) (owner : Node) :
    createOrUpdateFlavor.merge r flavor nodeInfo nodeIdentity owner =
      existingPayload r (createOrUpdateFlavor.object r flavor nodeIdentity) >>= fun k =>
      marshalPayload r (mergedPayload r flavor.isNone nodeInfo k) >>= fun raw =>
      SetOwnerReference r owner
        (mergedRecord r flavor.isNone nodeIdentity
          (createOrUpdateFlavor.object r flavor nodeIdentity) raw) := by
  unfold createOrUpdateFlavor.merge
  exact mutate_eq _ _ _ _ _ _

theorem existingPayload_object (r : NodeReconciler) (flavor : Flavor)
    (nodeIdentity : NodeIdentity) :
    existingPayload r (createOrUpdateFlavor.object r (some flavor) nodeIdentity) =
      existingPayload r flavor := rfl

theorem marshalPayload_ok (r : NodeReconciler) (k : K8Slice) (b : Bytes)
    (h : r.Marshal k = .ok b) : marshalPayload r k = .ok b := by
  unfold marshalPayload
  rw [h]

theorem SetOwnerReference_ok (r : NodeReconciler) (owner : Node) (object : Flavor)
    (gvk : GroupVersionKind) (h : r.GVKForObject owner = .ok gvk) :
    SetOwnerReference r owner object =
      .ok { object with
        OwnerReferences := upsertOwnerRef (ownerRefOf gvk owner) object.OwnerReferences } := by
  unfold SetOwnerReference
  rw [h]
  rfl

theorem merge_of_steps (r : NodeReconciler) (flavor : Option Flavor) (nodeInfo : NodeInfo)
    (nodeIdentity : NodeIdentity) (owner : Node) (k : K8Slice) (raw : Bytes)
    (gvk : GroupVersionKind)
    (hdecode : existingPayload r (createOrUpdateFlavor.object r flavor nodeIdentity) = .ok k)
    (hmarshal : r.Marshal (mergedPayload r flavor.isNone nodeInfo k) = .ok raw)
    (hkind : r.GVKForObject owner = .ok gvk) :
    createOrUpdateFlavor.merge r flavor nodeInfo nodeIdentity owner =
      .ok (mergeResult r flavor nodeIdentity owner raw gvk) := by
  rw [merge_eq, hdecode]
  simp only [Result.ok_bind]
  rw [marshalPayload_ok r _ raw hmarshal]
  simp only [Result.ok_bind]
  rw [SetOwnerReference_ok r owner _ gvk hkind]
  rfl

theorem marshalPayload_inv (r : NodeReconciler) (k : K8Slice) (b : Bytes)
    (h : marshalPayload r k = .ok b) : r.Marshal k = .ok b := by
  unfold marshalPayload at h
  cases hm : r.Marshal k with
  | error e => rw [hm] at h; cases h
  | ok b' => rw [hm] at h; injection h with h; rw [h]

theorem SetOwnerReference_inv (r : NodeReconciler) (owner : Node) (object result : Flavor)
    (h : SetOwnerReference r owner object = .ok result) :
    ∃ gvk, r.GVKForObject owner = .ok gvk ∧
      result = { object with
        OwnerReferences := upsertOwnerRef (ownerRefOf gvk owner) object.OwnerReferences } := by
  unfold SetOwnerReference at h
  cases hg : r.GVKForObject owner with
  | error e => rw [hg] at h; cases h
  | ok gvk =>
    rw [hg] at h
    injection h with h
    exact ⟨gvk, rfl, h.symm⟩

/-- A merge that returns went through its three steps. -/
theorem merge_ok_inv (r : NodeReconciler) (flavor : Option Flavor) (nodeInfo : NodeInfo)
    (nodeIdentity : NodeIdentity) (owner : Node) (merged : Flavor)
    (h : createOrUpdateFlavor.merge r flavor nodeInfo nodeIdentity owner = .ok merged) :
    ∃ k raw gvk,
      existingPayload r (createOrUpdateFlavor.object r flavor nodeIdentity) = .ok k ∧
      r.Marshal (mergedPayload r flavor.isNone nodeInfo k) = .ok raw ∧
      r.GVKForObject owner = .ok gvk ∧
      merged = mergeResult r flavor nodeIdentity owner raw gvk := by
  rw [merge_eq] at h
  obtain ⟨k, hk, h⟩ := Result.bind_eq_ok _ _ _ h
  obtain ⟨raw, hraw, h⟩ := Result.bind_eq_ok _ _ _ h
  obtain ⟨gvk, hgvk, h⟩ := SetOwnerReference_inv _ _ _ _ h
  exact ⟨k, raw, gvk, hk, marshalPayload_inv _ _ _ hraw, hgvk, h⟩

/-- C1: override protection. For every existing record whose payload decodes (to `k`) and every
`NodeInfo`, every record the merge returns has as payload the serialization of a payload with
the CPU, memory, pods and storage characteristics and the properties block of `k`, and has the
price, availability flag, network-property type and location of the existing record, whatever
capacity the `NodeInfo` carries; and the merge does return a record whenever its serialization
and owner-reference steps succeed. -/
theorem merge_preserves_overrides (r : NodeReconciler) (flavor : Flavor) (nodeInfo : NodeInfo)
    (nodeIdentity : NodeIdentity) (owner : Node) (k : K8Slice)
    (hdecode : existingPayload r flavor = .ok k) :
    (∀ merged,
      createOrUpdateFlavor.merge r (some flavor) nodeInfo nodeIdentity owner = .ok merged →
      ∃ payload,
        r.Marshal payload = .ok merged.Spec.FlavorType.TypeData.Raw ∧
        payload.Characteristics.CPU = k.Characteristics.CPU ∧
        payload.Characteristics.Memory = k.Characteristics.Memory ∧
        payload.Characteristics.Pods = k.Characteristics.Pods ∧
        payload.Characteristics.Storage = k.Characteristics.Storage ∧
        payload.Properties = k.Properties ∧
        merged.Spec.Price = flavor.Spec.Price ∧
        merged.Spec.Availability = flavor.Spec.Availability ∧
        merged.Spec.NetworkPropertyType = flavor.Spec.NetworkPropertyType ∧
        merged.Spec.Location = flavor.Spec.Location) ∧
    (∀ raw gvk, r.Marshal (mergedPayload r false nodeInfo k) = .ok raw →
      r.GVKForObject owner = .ok gvk →
      ∃ merged,
        createOrUpdateFlavor.merge r (some flavor) nodeInfo nodeIdentity owner = .ok merged) := by
  constructor
  · intro merged hmerged
    obtain ⟨k', raw, gvk, hk', hraw, -, rfl⟩ := merge_ok_inv _ _ _ _ _ _ hmerged
    rw [existingPayload_object, hdecode] at hk'
    injection hk' with hk'
    subst hk'
    exact ⟨mergedPayload r false nodeInfo k, hraw, rfl, rfl, rfl, rfl, rfl, rfl, rfl, rfl, rfl⟩
  · intro raw gvk hmarshal hkind
    exact ⟨_, merge_of_steps r (some flavor) nodeInfo nodeIdentity owner k raw gvk hdecode
      hmarshal hkind⟩

/-- Witness of C1: an existing offer with a price, availability, network-property type and
location edited by the provider, merged with a `NodeInfo` of another capacity; the merge
returns a record, and its price is the edited one. -/
theorem merge_preserves_overrides_witness :
    ∃ merged,
      createOrUpdateFlavor.merge (sampleReconciler (sampleNode none) sampleMetrics [])
        (some (sampleFlavor "offer-a" [123, 125])) sampleNodeInfoLater sampleIdentity
        (sampleNode none) = .ok merged ∧
      ∃ payload,
        sampleMarshal payload = .ok merged.Spec.FlavorType.TypeData.Raw ∧
        payload.Characteristics.CPU = samplePayload.Characteristics.CPU ∧
        payload.Characteristics.Memory = samplePayload.Characteristics.Memory ∧
        payload.Characteristics.Pods = samplePayload.Characteristics.Pods ∧
        payload.Characteristics.Storage = samplePayload.Characteristics.Storage ∧
        payload.Properties = samplePayload.Properties ∧
        merged.Spec.Price = { Amount := "42", Currency := "USD", Period := "monthly" } ∧
        merged.Spec.Availability = false ∧
        merged.Spec.NetworkPropertyType = "custom" ∧
        merged.Spec.Location = (sampleFlavor "offer-a" [123, 125]).Spec.Location := by
  have h := merge_preserves_overrides (sampleReconciler (sampleNode none) sampleMetrics [])
    (sampleFlavor "offer-a" [123, 125]) sampleNodeInfoLater sampleIdentity (sampleNode none)
    samplePayload (by decide)
  obtain ⟨merged, hmerged⟩ := h.2 [123, 125] { Group := "", Version := "v1", Kind := "Node" }
    rfl rfl
  exact ⟨merged, hmerged, h.1 merged hmerged⟩

/-- C2, evaluated at a `NodeInfo` with four GPUs: the merge succeeds and the payload it stores
has the architecture and the GPU vendor, model, aggregate memory and aggregate cores of the
`NodeInfo`, but the count of its GPU block is 0, not 4. -/
theorem merge_drops_gpu_count :
    sampleNodeInfo.ResourceMetrics.GPU.Count = 4 ∧
    ∃ merged payload,
      createOrUpdateFlavor.merge (sampleReconciler (sampleNode none) sampleMetrics []) none
        sampleNodeInfo sampleIdentity (sampleNode none) = .ok merged ∧
      sampleUnmarshal merged.Spec.FlavorType.TypeData.Raw = .ok payload ∧
      payload.Characteristics.Architecture = sampleNodeInfo.Architecture ∧
      payload.Characteristics.Gpu.map (fun g => g.Vendor) = some "nvidia" ∧
      payload.Characteristics.Gpu.map (fun g => g.Model) = some "a100" ∧
      payload.Characteristics.Gpu.map (fun g => g.Memory) =
        some sampleNodeInfo.ResourceMetrics.GPU.MemoryTotal ∧
      payload.Characteristics.Gpu.map (fun g => g.CoresTotal) =
        some sampleNodeInfo.ResourceMetrics.GPU.CoresTotal ∧
      payload.Characteristics.Gpu.map (fun g => g.Count) = some 0 := by
  refine ⟨rfl, mergeResult (sampleReconciler (sampleNode none) sampleMetrics []) none
    sampleIdentity (sampleNode none) [123, 125] { Group := "", Version := "v1", Kind := "Node" },
    samplePayload, by decide, rfl, rfl, rfl, rfl, rfl, rfl, rfl⟩

/-- C3 (amended): for every existing record whose non-empty raw payload fails to deserialize,
the merge fails: the mutate function returns the deserialization error, whatever the captured
`shouldCreate`, and no record is produced. -/
theorem merge_undecodable_fails (r : NodeReconciler) (flavor : Flavor) (nodeInfo : NodeInfo)
    (nodeIdentity : NodeIdentity) (owner : Node) (unmarshalErr : Error)
    (hraw : flavor.Spec.FlavorType.TypeData.Raw ≠ [])
    (hfail : r.Unmarshal flavor.Spec.FlavorType.TypeData.Raw = .error unmarshalErr) :
    createOrUpdateFlavor.merge r (some flavor) nodeInfo nodeIdentity owner =
      .error unmarshalErr ∧
    ∀ shouldCreate,
      createOrUpdateFlavor.mutate r shouldCreate nodeInfo nodeIdentity owner flavor =
        .error unmarshalErr := by
  have hlen : flavor.Spec.FlavorType.TypeData.Raw.length > 0 :=
    List.length_pos.mpr hraw
  have hdecode : existingPayload r flavor = .error unmarshalErr := by
    unfold existingPayload
    simp [hlen, hfail]
  constructor
  · rw [merge_eq, existingPayload_object, hdecode]
    rfl
  · intro shouldCreate
    rw [mutate_eq, hdecode]
    rfl

/-- Witness of C3: an existing offer whose raw payload is the two bytes of an unterminated
JSON text. -/
theorem merge_undecodable_fails_witness :
    createOrUpdateFlavor.merge (sampleReconciler (sampleNode none) sampleMetrics [])
        (some (sampleFlavor "offer-a" [123, 34])) sampleNodeInfo sampleIdentity
        (sampleNode none) = .error "invalid character" :=
  (merge_undecodable_fails (sampleReconciler (sampleNode none) sampleMetrics [])
    (sampleFlavor "offer-a" [123, 34]) sampleNodeInfo sampleIdentity (sampleNode none)
    "invalid character" (by decide) rfl).1

/-- Counterexample to C3 as stated: the raw payload of the existing offer is the single byte
of an opening brace, it fails to deserialize, and the merge returns no record. -/
theorem merge_undecodable_counterexample :
    (sampleFlavor "offer-a" [123]).Spec.FlavorType.TypeData.Raw ≠ [] ∧
    sampleUnmarshal (sampleFlavor "offer-a" [123]).Spec.FlavorType.TypeData.Raw =
      .error "invalid character" ∧
    ¬ ∃ merged,
      createOrUpdateFlavor.merge (sampleReconciler (sampleNode none) sampleMetrics [])
        (some (sampleFlavor "offer-a" [123])) sampleNodeInfo sampleIdentity
        (sampleNode none) = .ok merged := by
  refine ⟨by decide, rfl, ?_⟩
  rintro ⟨merged, h⟩
  have he : createOrUpdateFlavor.merge (sampleReconciler (sampleNode none) sampleMetrics [])
      (some (sampleFlavor "offer-a" [123])) sampleNodeInfo sampleIdentity
      (sampleNode none) = .error "invalid character" := by decide
  rw [he] at h
  cases h

/-! ## Idempotence of the merge -/

theorem referSameObject_self (ref : OwnerReference)
    (h : (parseGroup ref.APIVersion).isSome) : referSameObject ref ref = true := by
  unfold referSameObject
  cases hg : parseGroup ref.APIVersion with
  | none => rw [hg] at h; cases h
  | some g => simp

theorem upsertOwnerRef_idem (ref : OwnerReference) (owners : List OwnerReference)
    (h : referSameObject ref ref = true) :
    upsertOwnerRef ref (upsertOwnerRef ref owners) = upsertOwnerRef ref owners := by
  induction owners with
  | nil => simp [upsertOwnerRef, h]
  | cons o owners ih =>
    by_cases ho : referSameObject o ref = true
    · simp [upsertOwnerRef, ho, h]
    · simp [upsertOwnerRef, ho, ih]

theorem mergedPayload_idem (r : NodeReconciler) (shouldCreate : Bool) (nodeInfo : NodeInfo)
    (k : K8Slice) :
    mergedPayload r false nodeInfo (mergedPayload r shouldCreate nodeInfo k) =
      mergedPayload r shouldCreate nodeInfo k := by
  cases shouldCreate <;> rfl

/-- C4: merge idempotence. When the codec decodes what it encodes (and encodes nothing as the
empty byte string) and the API version of the owner kind is well-formed, a merge that returned
`first`, run again with `first` as the existing record and the same `NodeInfo`, identity, owner
and configuration, returns `first` again, serialized payload included. -/
theorem merge_idempotent (r : NodeReconciler) (existing : Option Flavor) (nodeInfo : NodeInfo)
    (nodeIdentity : NodeIdentity) (owner : Node) (first : Flavor)
    (hcodec : ∀ k b, r.Marshal k = .ok b → b ≠ [] ∧ r.Unmarshal b = .ok k)
    (hversion : ∀ gvk, r.GVKForObject owner = .ok gvk → (parseGroup gvk.apiVersion).isSome)
    (hfirst : createOrUpdateFlavor.merge r existing nodeInfo nodeIdentity owner = .ok first) :
    createOrUpdateFlavor.merge r (some first) nodeInfo nodeIdentity owner = .ok first := by
  obtain ⟨k, raw, gvk, -, hraw, hgvk, rfl⟩ := merge_ok_inv _ _ _ _ _ _ hfirst
  obtain ⟨hne, hdec⟩ := hcodec _ _ hraw
  have hlen : raw.length > 0 := List.length_pos.mpr hne
  have hdecode : existingPayload r (createOrUpdateFlavor.object r
      (some (mergeResult r existing nodeIdentity owner raw gvk)) nodeIdentity) =
      .ok (mergedPayload r existing.isNone nodeInfo k) := by
    simp only [existingPayload, createOrUpdateFlavor.object, mergeResult, mergedRecord, hlen,
      if_true, hdec]
  have hmarshal : r.Marshal (mergedPayload r (some (mergeResult r existing nodeIdentity owner
      raw gvk)).isNone nodeInfo (mergedPayload r existing.isNone nodeInfo k)) = .ok raw := by
    simp only [Option.isNone_some, mergedPayload_idem, hraw]
  rw [merge_of_steps r _ nodeInfo nodeIdentity owner _ raw gvk hdecode hmarshal hgvk]
  have hself := referSameObject_self (ownerRefOf gvk owner) (hversion gvk hgvk)
  simp only [mergeResult, mergedRecord, createOrUpdateFlavor.object, Option.isNone_some,
    Bool.false_eq_true, if_false, upsertOwnerRef_idem _ _ hself]

theorem sampleCodec_roundtrip (k : K8Slice) (b : Bytes) (h : sampleMarshal k = .ok b) :
    b ≠ [] ∧ sampleUnmarshal b = .ok k := by
  unfold sampleMarshal at h
  split at h
  · rename_i hk
    injection h with h
    subst h hk
    exact ⟨by decide, rfl⟩
  · cases h

/-- Witness of C4: the offer created for the sample node is returned unchanged by a second
merge. -/
theorem merge_idempotent_witness :
    createOrUpdateFlavor.merge (sampleReconciler (sampleNode none) sampleMetrics [])
      (some (mergeResult (sampleReconciler (sampleNode none) sampleMetrics []) none
        sampleIdentity (sampleNode none) [123, 125]
        { Group := "", Version := "v1", Kind := "Node" }))
      sampleNodeInfo sampleIdentity (sampleNode none) =
    .ok (mergeResult (sampleReconciler (sampleNode none) sampleMetrics []) none
      sampleIdentity (sampleNode none) [123, 125]
      { Group := "", Version := "v1", Kind := "Node" }) :=
  merge_idempotent (sampleReconciler (sampleNode none) sampleMetrics []) none sampleNodeInfo
    sampleIdentity (sampleNode none) _ sampleCodec_roundtrip
    (by intro gvk h; injection h with h; subst h; decide)
    (by decide)

/-! ## Selection of the existing record by `Reconcile` -/

theorem ownerLoop_eq (i : Flavor) (refs : List OwnerReference) (flavor : Option Flavor) :
    Reconcile.ownerLoop i refs flavor =
      if refs.any (fun ref => ref.Kind == "Node") then some i else flavor := by
  induction refs with
  | nil => rfl
  | cons ref refs ih =>
    unfold Reconcile.ownerLoop
    by_cases h : ref.Kind = "Node"
    · simp [h]
    · simp [h, ih]

theorem selectFlavor_foldl (items : List Flavor) (flavor : Option Flavor) :
    items.foldl (fun flavor i => Reconcile.ownerLoop i i.OwnerReferences flavor) flavor =
      match (items.filter hasNodeOwner).getLast? with
      | some last => some last
      | none => flavor := by
  induction items generalizing flavor with
  | nil => rfl
  | cons i items ih =>
    rw [List.foldl_cons, ih, ownerLoop_eq]
    by_cases h : hasNodeOwner i = true
    · have h' : (i.OwnerReferences.any fun ref => ref.Kind == "Node") = true := h
      rw [List.filter_cons_of_pos h]
      simp only [h', if_true]
      cases hl : (items.filter hasNodeOwner) with
      | nil => simp
      | cons a l =>
        rw [List.getLast?_cons_cons]
        have hsome : (a :: l).getLast? = some ((a :: l).getLast (List.cons_ne_nil a l)) :=
          List.getLast?_eq_getLast _ _
        rw [hsome]
    · have h' : ¬ (i.OwnerReferences.any fun ref => ref.Kind == "Node") = true := h
      rw [List.filter_cons_of_neg h]
      simp only [h', Bool.false_eq_true, if_false]

/-- The loop of `Reconcile` ends with the last offer of the list that has an owner reference
of kind `Node`. -/
theorem selectFlavor_eq_last (items : List Flavor) :
    Reconcile.selectFlavor items = (items.filter hasNodeOwner).getLast? := by
  unfold Reconcile.selectFlavor
  rw [selectFlavor_foldl]
  cases (items.filter hasNodeOwner).getLast? <;> rfl

theorem withNode_of_reads (r : NodeReconciler) (node : Node) (calls : List Call)
    (nodeMetrics : NodeMetrics) (nodeInfo : NodeInfo) (nodeIdentity : NodeIdentity)
    (items : List Flavor)
    (hlabel : LabelSelectorMatches r node.Labels = true)
    (husage : r.GetNodeMetrics node.Name = .ok nodeMetrics)
    (hinfo : GetNodeInfos r.parsers node nodeMetrics = .ok nodeInfo)
    (hidentity : r.GetNodeIdentity = some nodeIdentity)
    (hlist : r.ListFlavors FlavorByNodeName.Field node.Name = .ok items) :
    Reconcile.withNode r node calls =
      (calls ++ [Call.GetNodeMetrics node.Name] ++ [Call.GetNodeIdentity] ++
          [Call.ListFlavors FlavorByNodeName.Field node.Name] ++
          [Call.CreateOrUpdate
            (createOrUpdateFlavor.object r (Reconcile.selectFlavor items) nodeIdentity)],
        match createOrUpdateFlavor r (Reconcile.selectFlavor items) nodeInfo nodeIdentity
            node with
        | .panic m => .panic m
        | .error _ => .ok { Requeue := true }
        | .ok _ => .ok {}) := by
  unfold Reconcile.withNode
  simp only [hlabel, not_true_eq_false, if_false, husage, hinfo, hidentity, hlist]
  cases createOrUpdateFlavor r (Reconcile.selectFlavor items) nodeInfo nodeIdentity node <;> rfl

/-- C5 (amended): ownership selection. In a pass of `Reconcile` that reaches the lookup, the
record passed to `createOrUpdateFlavor` as the existing record is the LAST document in list
order that has an owner reference of kind `Node` (and no record when none has one): the object
handed to `CreateOrUpdate`, the last external call of the pass, is built from it, and the
outcome of the pass is decided by the merge of it. -/
theorem Reconcile_selects_last_node_owned (r : NodeReconciler) (req : NamespacedName)
    (node : Node) (nodeMetrics : NodeMetrics) (nodeInfo : NodeInfo)
    (nodeIdentity : NodeIdentity) (items : List Flavor)
    (henabled : r.EnableAutoDiscovery = true) (hready : ∀ e, r.WebhookServer ≠ some (some e))
    (hnode : r.GetNode req = .ok node) (hlabel : LabelSelectorMatches r node.Labels = true)
    (husage : r.GetNodeMetrics node.Name = .ok nodeMetrics)
    (hinfo : GetNodeInfos r.parsers node nodeMetrics = .ok nodeInfo)
    (hidentity : r.GetNodeIdentity = some nodeIdentity)
    (hlist : r.ListFlavors FlavorByNodeName.Field node.Name = .ok items) :
    Reconcile.selectFlavor items = (items.filter hasNodeOwner).getLast? ∧
    (Reconcile r req).1.getLast? =
      some (Call.CreateOrUpdate
        (createOrUpdateFlavor.object r ((items.filter hasNodeOwner).getLast?) nodeIdentity)) ∧
    (Reconcile r req).2 =
      match createOrUpdateFlavor r ((items.filter hasNodeOwner).getLast?) nodeInfo nodeIdentity
          node with
      | .panic m => .panic m
      | .error _ => .ok { Requeue := true }
      | .ok _ => .ok {} := by
  rw [Reconcile_of_reads r req node henabled hready hnode,
    withNode_of_reads r node _ nodeMetrics nodeInfo nodeIdentity items hlabel husage hinfo
      hidentity hlist,
    selectFlavor_eq_last]
  exact ⟨rfl, List.getLast?_concat _, rfl⟩

/-- Witness of C5: two offers owned by the node `worker-1`; the second one is merged. -/
theorem Reconcile_selects_last_node_owned_witness :
    (Reconcile
      (sampleReconciler (sampleNode none) sampleMetrics
        [sampleFlavor "offer-a" [123, 125], sampleFlavor "offer-b" [123, 125]])
      { Name := "worker-1" }).1.getLast? =
    some (Call.CreateOrUpdate (sampleFlavor "offer-b" [123, 125])) :=
  (Reconcile_selects_last_node_owned
    (sampleReconciler (sampleNode none) sampleMetrics
      [sampleFlavor "offer-a" [123, 125], sampleFlavor "offer-b" [123, 125]])
    { Name := "worker-1" } (sampleNode none) sampleMetrics
    (forgeNodeInfo (sampleNode none) (resourceMetricsOf sampleMetrics (sampleNode none) {}))
    sampleIdentity
    [sampleFlavor "offer-a" [123, 125], sampleFlavor "offer-b" [123, 125]]
    rfl (by intro e h; cases h) rfl rfl rfl (by decide) rfl rfl).2.1

/-- Counterexample to C5 as stated: the lookup returns two offers that both have an owner
reference of kind `Node`; the first of them in list order is `offer-a`, and the pass of
`Reconcile` hands `offer-b` to `CreateOrUpdate`. -/
theorem Reconcile_selects_first_counterexample :
    List.find? hasNodeOwner
        [sampleFlavor "offer-a" [123, 125], sampleFlavor "offer-b" [123, 125]] =
      some (sampleFlavor "offer-a" [123, 125]) ∧
    Reconcile.selectFlavor
        [sampleFlavor "offer-a" [123, 125], sampleFlavor "offer-b" [123, 125]] =
      some (sampleFlavor "offer-b" [123, 125]) ∧
    sampleFlavor "offer-a" [123, 125] ≠ sampleFlavor "offer-b" [123, 125] ∧
    (Reconcile
      (sampleReconciler (sampleNode none) sampleMetrics
        [sampleFlavor "offer-a" [123, 125], sampleFlavor "offer-b" [123, 125]])
      { Name := "worker-1" }).1.getLast? =
    some (Call.CreateOrUpdate (sampleFlavor "offer-b" [123, 125])) := by
  refine ⟨by decide, by decide, by decide, by decide⟩

/-! ## GPU conversion round trip -/

/-- C19: GPU conversion round trip. Converting a `models.GpuCharacteristics` value to the
nodecore GPU and back gives the value again, field for field; converting a nodecore GPU to
`models.GpuCharacteristics` and back gives the GPU with its `Cores` field replaced by its
`CoresTotal`, which is the GPU itself exactly when `Cores` equals `CoresTotal`. -/
theorem gpu_conversion_round_trip :
    (∀ c : GpuCharacteristics, ToGpuCharacteristics (ToNodeCoreGPU c) = c) ∧
    (∀ g : GPU, ToNodeCoreGPU (ToGpuCharacteristics g) = { g with Cores := g.CoresTotal }) ∧
    (∀ g : GPU, ToNodeCoreGPU (ToGpuCharacteristics g) = g ↔ g.Cores = g.CoresTotal) := by
  refine ⟨fun c => rfl, fun g => rfl, fun g => ?_⟩
  constructor
  · intro h
    have hc := congrArg GPU.Cores h
    exact hc.symm
  · intro h
    cases g
    simp only [ToNodeCoreGPU, ToGpuCharacteristics] at h ⊢
    simp only [GPU.mk.injEq, and_true, true_and]
    exact h.symm

/-! ## The gate and the fetch of `Reconcile` -/

/-- C18: gate. With auto-discovery disabled `Reconcile` returns no error and no requeue and
makes no external call at all, whatever the readiness check would say; with auto-discovery
enabled and a configured readiness checker reporting not-ready, it returns a requeue request
with no error, the readiness check being its only external call. -/
theorem Reconcile_gate (r : NodeReconciler) (req : NamespacedName) :
    (r.EnableAutoDiscovery = false → Reconcile r req = ([], .ok { Requeue := false })) ∧
    (r.EnableAutoDiscovery = true → ∀ err, r.WebhookServer = some (some err) →
      Reconcile r req = ([Call.StartedChecker], .ok { Requeue := true })) := by
  constructor
  · intro h
    unfold Reconcile
    simp [h]
  · intro h err hw
    unfold Reconcile
    simp [h, hw]

/-- Witness of C18: the sample reconciler, disabled, and enabled with a webhook server that
has not started. -/
theorem Reconcile_gate_witness :
    Reconcile sampleReconcilerDisabled { Name := "worker-1" } = ([], .ok { Requeue := false }) ∧
    Reconcile sampleReconcilerNotReady { Name := "worker-1" } =
      ([Call.StartedChecker], .ok { Requeue := true }) :=
  ⟨(Reconcile_gate sampleReconcilerDisabled { Name := "worker-1" }).1 rfl,
   (Reconcile_gate sampleReconcilerNotReady { Name := "worker-1" }).2 rfl _ rfl⟩

/-- C17: when the pipeline is enabled and ready and the node read reports that the node does
not exist, `Reconcile` returns no error and no requeue, and its only external calls are the
readiness check (when a checker is configured) and the node read: the usage fetch, the lookup
and the persist step are not reached. The pass ends at the label check, which the zero-valued
node fails. -/
theorem Reconcile_node_not_found (r : NodeReconciler) (req : NamespacedName)
    (err : ClientError)
    (henabled : r.EnableAutoDiscovery = true) (hready : ∀ e, r.WebhookServer ≠ some (some e))
    (hnode : r.GetNode req = .error err) (hnotFound : err.IsNotFound = true) :
    (Reconcile r req).2 = .ok { Requeue := false } ∧
    (Reconcile r req).1 =
      (if r.WebhookServer.isSome then [Call.StartedChecker] else []) ++ [Call.GetNode req] ∧
    (∀ name, Call.GetNodeMetrics name ∉ (Reconcile r req).1) ∧
    (∀ field value, Call.ListFlavors field value ∉ (Reconcile r req).1) ∧
    (∀ object, Call.CreateOrUpdate object ∉ (Reconcile r req).1) := by
  have hrun : Reconcile r req =
      ((if r.WebhookServer.isSome then [Call.StartedChecker] else []) ++ [Call.GetNode req],
        .ok { Requeue := false }) := by
    unfold Reconcile
    cases hw : r.WebhookServer with
    | none => simp [henabled, hnode, hnotFound, Reconcile.withNode, LabelSelectorMatches]
    | some o =>
      cases o with
      | none => simp [henabled, hnode, hnotFound, Reconcile.withNode, LabelSelectorMatches]
      | some e => exact absurd hw (hready e)
  rw [hrun]
  refine ⟨rfl, rfl, ?_, ?_, ?_⟩
  · intro name
    cases r.WebhookServer <;> simp
  · intro field value
    cases r.WebhookServer <;> simp
  · intro object
    cases r.WebhookServer <;> simp

/-- Witness of C17: the sample reconciler with a node read that reports the node missing. -/
theorem Reconcile_node_not_found_witness :
    (Reconcile sampleReconcilerNoNode { Name := "worker-1" }).2 = .ok { Requeue := false } ∧
    (Reconcile sampleReconcilerNoNode { Name := "worker-1" }).1 =
      [Call.StartedChecker, Call.GetNode { Name := "worker-1" }] :=
  have h := Reconcile_node_not_found sampleReconcilerNoNode { Name := "worker-1" }
    { IsNotFound := true, msg := "nodes \"worker-1\" not found" } rfl
    (by intro e h; cases h) rfl rfl
  ⟨h.1, h.2.1⟩

/-- C16: in a pass of `Reconcile` that reaches the persist step, every error returned by
`createOrUpdateFlavor` (a conflict or any other) makes `Reconcile` return a requeue request and
no error, and a successful persist step makes it return no requeue and no error. -/
theorem Reconcile_persist_outcome (r : NodeReconciler) (req : NamespacedName) (node : Node)
    (nodeMetrics : NodeMetrics) (nodeInfo : NodeInfo) (nodeIdentity : NodeIdentity)
    (items : List Flavor)
    (henabled : r.EnableAutoDiscovery = true) (hready : ∀ e, r.WebhookServer ≠ some (some e))
    (hnode : r.GetNode req = .ok node) (hlabel : LabelSelectorMatches r node.Labels = true)
    (husage : r.GetNodeMetrics node.Name = .ok nodeMetrics)
    (hinfo : GetNodeInfos r.parsers node nodeMetrics = .ok nodeInfo)
    (hidentity : r.GetNodeIdentity = some nodeIdentity)
    (hlist : r.ListFlavors FlavorByNodeName.Field node.Name = .ok items) :
    (∀ err, createOrUpdateFlavor r (Reconcile.selectFlavor items) nodeInfo nodeIdentity node =
        .error err →
      (Reconcile r req).2 = .ok { Requeue := true }) ∧
    (createOrUpdateFlavor r (Reconcile.selectFlavor items) nodeInfo nodeIdentity node = .ok () →
      (Reconcile r req).2 = .ok { Requeue := false }) := by
  rw [Reconcile_of_reads r req node henabled hready hnode,
    withNode_of_reads r node _ nodeMetrics nodeInfo nodeIdentity items hlabel husage hinfo
      hidentity hlist]
  constructor
  · intro err herr
    simp only [herr]
  · intro hok
    simp only [hok]

/-- Witness of C16: the sample reconciler whose persist step reports a conflict requeues, and
the one whose persist step succeeds does not. -/
theorem Reconcile_persist_outcome_witness :
    (Reconcile sampleReconcilerConflict { Name := "worker-1" }).2 = .ok { Requeue := true } ∧
    (Reconcile sampleReconcilerStored { Name := "worker-1" }).2 = .ok { Requeue := false } :=
  ⟨(Reconcile_persist_outcome sampleReconcilerConflict { Name := "worker-1" } (sampleNode none)
      sampleMetrics
      (forgeNodeInfo (sampleNode none) (resourceMetricsOf sampleMetrics (sampleNode none) {}))
      sampleIdentity [] rfl (by intro e h; cases h) rfl rfl rfl (by decide) rfl rfl).1 _ rfl,
   (Reconcile_persist_outcome sampleReconcilerStored { Name := "worker-1" } (sampleNode none)
      sampleMetrics
      (forgeNodeInfo (sampleNode none) (resourceMetricsOf sampleMetrics (sampleNode none) {}))
      sampleIdentity [] rfl (by intro e h; cases h) rfl rfl rfl (by decide) rfl rfl).2 rfl⟩

/-! ## Boolean, empty and location annotations -/

theorem ParseBool_invalid_value (v : String) (h : (ParseBool v).2 ≠ none) :
    (ParseBool v).1 = false := by
  unfold ParseBool at h ⊢
  split_ifs at h ⊢ <;> simp at h ⊢

/-- For every annotation map, `forgeResourceMetrics` never returns an error value, and in the
metrics it returns each of the five boolean fields whose key is present equals the boolean
`strconv.ParseBool` returns for the value, which is `false` when the value is not a valid
boolean literal; such a value changes nothing else: the outcome is that of the map without the
key. Metrics are returned whenever the quantity-typed annotations present are valid. -/
theorem boolean_keys_outcome (lib : Parsers) (nodeMetrics : NodeMetrics) (node : Node) :
    (forgeResourceMetrics lib nodeMetrics node).isError = false ∧
    (∀ metrics, forgeResourceMetrics lib nodeMetrics node = .ok metrics →
      (∀ v, annotationsOf node "nvidia.fluidos.eu/mig-capable" = some v →
        metrics.GPU.MultiInstance = (ParseBool v).1 ∧
        ((ParseBool v).2 ≠ none → metrics.GPU.MultiInstance = false)) ∧
      (∀ v, annotationsOf node "gpu.fluidos.eu/sharing-capable" = some v →
        metrics.GPU.Shared = (ParseBool v).1 ∧
        ((ParseBool v).2 ≠ none → metrics.GPU.Shared = false)) ∧
      (∀ v, annotationsOf node "gpu.fluidos.eu/interruptible" = some v →
        metrics.GPU.Interruptible = (ParseBool v).1 ∧
        ((ParseBool v).2 ≠ none → metrics.GPU.Interruptible = false)) ∧
      (∀ v, annotationsOf node "gpu.fluidos.eu/dedicated" = some v →
        metrics.GPU.Dedicated = (ParseBool v).1 ∧
        ((ParseBool v).2 ≠ none → metrics.GPU.Dedicated = false)) ∧
      (∀ v, annotationsOf node "provider.fluidos.eu/preemptible" = some v →
        metrics.GPU.PreEmptible = (ParseBool v).1 ∧
        ((ParseBool v).2 ≠ none → metrics.GPU.PreEmptible = false))) ∧
    (∀ key v, key ∈ booleanKeys → annotationsOf node key = some v → (ParseBool v).2 ≠ none →
      forgeResourceMetrics lib nodeMetrics node =
        forgeResourceMetrics lib nodeMetrics (withoutKey node key)) ∧
    (quantitiesParse lib (annotationsOf node) →
      ∃ metrics, forgeResourceMetrics lib nodeMetrics node = .ok metrics) := by
  refine ⟨forgeResourceMetrics_not_error lib nodeMetrics node, ?_, ?_, ?_⟩
  · intro metrics hm
    obtain ⟨mem, ib, cores, clock, nb, rfl⟩ := forgeResourceMetrics_ok_inv _ _ _ _ hm
    have field : ∀ key v, annotationsOf node key = some v →
        foundOr (annotationsOf node) key (fun v => (ParseBool v).1) false = (ParseBool v).1 ∧
        ((ParseBool v).2 ≠ none →
          foundOr (annotationsOf node) key (fun v => (ParseBool v).1) false = false) := by
      intro key v hk
      have hf : foundOr (annotationsOf node) key (fun v => (ParseBool v).1) false =
          (ParseBool v).1 := by
        simp only [foundOr, hk]
      exact ⟨hf, fun hv => hf.trans (ParseBool_invalid_value v hv)⟩
    exact ⟨fun v hk => field _ v hk, fun v hk => field _ v hk, fun v hk => field _ v hk,
      fun v hk => field _ v hk, fun v hk => field _ v hk⟩
  · intro key v hkey hk hv
    have hfalse := ParseBool_invalid_value v hv
    rw [forgeResourceMetrics_eq, forgeResourceMetrics_eq, annotationsOf_withoutKey]
    simp only [booleanKeys, List.mem_cons, List.mem_singleton, List.not_mem_nil, or_false]
      at hkey
    rcases hkey with rfl | rfl | rfl | rfl | rfl <;>
    · simp (disch := decide) only [gpuMetricsOf, foundOr_remove_self, foundOr_remove_ne,
        quantityAt_remove_ne]
      simp only [foundOr, hk, hfalse]
      rfl
  · intro hq
    exact ⟨_, forgeResourceMetrics_of_parse lib nodeMetrics node hq⟩

/-- C11 (amended): for every annotation map whose quantity-typed annotations, when present,
are valid resource quantities, `forgeResourceMetrics` returns metrics, raising no error, in
which each of the five boolean fields (mig-capable, sharing-capable, interruptible, dedicated,
preemptible) whose key is present equals the boolean parsed from the value, and is `false`
when the value is not a valid boolean literal. -/
theorem boolean_keys_parsed (lib : Parsers) (nodeMetrics : NodeMetrics) (node : Node)
    (hq : quantitiesParse lib (annotationsOf node)) :
    ∃ metrics, forgeResourceMetrics lib nodeMetrics node = .ok metrics ∧
      (∀ v, annotationsOf node "nvidia.fluidos.eu/mig-capable" = some v →
        metrics.GPU.MultiInstance = (ParseBool v).1 ∧
        ((ParseBool v).2 ≠ none → metrics.GPU.MultiInstance = false)) ∧
      (∀ v, annotationsOf node "gpu.fluidos.eu/sharing-capable" = some v →
        metrics.GPU.Shared = (ParseBool v).1 ∧
        ((ParseBool v).2 ≠ none → metrics.GPU.Shared = false)) ∧
      (∀ v, annotationsOf node "gpu.fluidos.eu/interruptible" = some v →
        metrics.GPU.Interruptible = (ParseBool v).1 ∧
        ((ParseBool v).2 ≠ none → metrics.GPU.Interruptible = false)) ∧
      (∀ v, annotationsOf node "gpu.fluidos.eu/dedicated" = some v →
        metrics.GPU.Dedicated = (ParseBool v).1 ∧
        ((ParseBool v).2 ≠ none → metrics.GPU.Dedicated = false)) ∧
      (∀ v, annotationsOf node "provider.fluidos.eu/preemptible" = some v →
        metrics.GPU.PreEmptible = (ParseBool v).1 ∧
        ((ParseBool v).2 ≠ none → metrics.GPU.PreEmptible = false)) := by
  have h := boolean_keys_outcome lib nodeMetrics node
  obtain ⟨metrics, hm⟩ := h.2.2.2 hq
  exact ⟨metrics, hm, h.2.1 metrics hm⟩

theorem quantitiesParse_singleEntry_interruptible :
    quantitiesParse sampleParsers
      (annotationsOf (sampleNode (some (singleEntry "gpu.fluidos.eu/interruptible" "maybe")))) := by
  intro key hkey v hv
  simp only [quantityKeys, List.mem_cons, List.mem_singleton, List.not_mem_nil, or_false]
    at hkey
  rcases hkey with rfl | rfl | rfl | rfl | rfl <;>
    simp [annotationsOf, sampleNode, singleEntry] at hv

/-- Witness of C11: the annotation `gpu.fluidos.eu/interruptible` set to `maybe`, with no
quantity-typed annotation, gives metrics whose `Interruptible` field is false. -/
theorem boolean_keys_parsed_witness :
    (ParseBool "maybe").2 ≠ none ∧
    ∃ metrics, forgeResourceMetrics sampleParsers sampleMetrics
        (sampleNode (some (singleEntry "gpu.fluidos.eu/interruptible" "maybe"))) = .ok metrics ∧
      metrics.GPU.Interruptible = false := by
  obtain ⟨metrics, hm, -, -, hint, -, -⟩ := boolean_keys_parsed sampleParsers sampleMetrics
    (sampleNode (some (singleEntry "gpu.fluidos.eu/interruptible" "maybe")))
    quantitiesParse_singleEntry_interruptible
  exact ⟨by decide, metrics, hm, (hint "maybe" rfl).2 (by decide)⟩

/-- Counterexample to C11 as stated: the annotation `gpu.fluidos.eu/interruptible` holds
`maybe`, which is not a valid boolean literal, and `gpu.fluidos.eu/clock-speed` holds `fast`;
`forgeResourceMetrics` panics at the clock speed, before the interruptible key is read, so no
metrics with `Interruptible` set to false are produced. -/
theorem boolean_keys_parsed_counterexample :
    (ParseBool "maybe").2 ≠ none ∧
    annotationsOf
      (sampleNode (some (twoEntries "gpu.fluidos.eu/interruptible" "maybe"
        "gpu.fluidos.eu/clock-speed" "fast"))) "gpu.fluidos.eu/interruptible" = some "maybe" ∧
    forgeResourceMetrics sampleParsers sampleMetrics
      (sampleNode (some (twoEntries "gpu.fluidos.eu/interruptible" "maybe"
        "gpu.fluidos.eu/clock-speed" "fast"))) =
      .panic "quantities must match the regular expression" ∧
    ¬ ∃ metrics, forgeResourceMetrics sampleParsers sampleMetrics
        (sampleNode (some (twoEntries "gpu.fluidos.eu/interruptible" "maybe"
          "gpu.fluidos.eu/clock-speed" "fast"))) = .ok metrics ∧
      metrics.GPU.Interruptible = false := by
  have hp : forgeResourceMetrics sampleParsers sampleMetrics
      (sampleNode (some (twoEntries "gpu.fluidos.eu/interruptible" "maybe"
        "gpu.fluidos.eu/clock-speed" "fast"))) =
      .panic "quantities must match the regular expression" := by decide
  refine ⟨by decide, rfl, hp, ?_⟩
  rintro ⟨metrics, h, -⟩
  rw [hp] at h
  cases h

/-- C12: for a node whose annotation map is nil or empty, `forgeResourceMetrics` returns
metrics whose GPU part is the zero value of `GPUMetrics`, and `GetNodeInfos`, called with the
usage snapshot of that node, returns a `NodeInfo` with these metrics and no error. -/
theorem empty_annotations_zero (lib : Parsers) (nodeMetrics : NodeMetrics) (node : Node)
    (hempty : node.Annotations = none ∨
      ∃ a, node.Annotations = some a ∧ ∀ key, a key = none) :
    (∃ metrics, forgeResourceMetrics lib nodeMetrics node = .ok metrics ∧
      metrics.GPU = {}) ∧
    (node.Name = nodeMetrics.Name →
      ∃ nodeInfo, GetNodeInfos lib node nodeMetrics = .ok nodeInfo ∧
        nodeInfo.ResourceMetrics.GPU = {}) := by
  have hann : annotationsOf node = fun _ => none := by
    rcases hempty with h | ⟨a, h, ha⟩
    · unfold annotationsOf
      rw [h]
    · unfold annotationsOf
      rw [h]
      exact funext ha
  have hq : quantitiesParse lib (annotationsOf node) := by
    intro key _ v hv
    rw [hann] at hv
    cases hv
  have hforge := forgeResourceMetrics_of_parse lib nodeMetrics node hq
  rw [hann] at hforge
  constructor
  · exact ⟨_, hforge, rfl⟩
  · intro hname
    rw [GetNodeInfos_of_name_eq lib node nodeMetrics hname, hforge]
    exact ⟨_, rfl, rfl⟩

/-- Witness of C12: the sample node without annotations, and with an empty annotation map. -/
theorem empty_annotations_zero_witness :
    (∃ metrics, forgeResourceMetrics sampleParsers sampleMetrics (sampleNode none) =
        .ok metrics ∧ metrics.GPU = {}) ∧
    (∃ nodeInfo, GetNodeInfos sampleParsers (sampleNode (some noEntries)) sampleMetrics =
        .ok nodeInfo ∧ nodeInfo.ResourceMetrics.GPU = {}) :=
  ⟨(empty_annotations_zero sampleParsers sampleMetrics (sampleNode none) (Or.inl rfl)).1,
   (empty_annotations_zero sampleParsers sampleMetrics (sampleNode (some noEntries))
      (Or.inr ⟨noEntries, rfl, fun _ => rfl⟩)).2 rfl⟩

/-- In the metrics the scan returns, the two location keys are stored crosswise, and every
other string-typed key is stored as it is in the field of its own name (the empty string when
the key is absent). -/
theorem string_keys_stored (lib : Parsers) (nodeMetrics : NodeMetrics) (node : Node)
    (metrics : ResourceMetrics)
    (h : forgeResourceMetrics lib nodeMetrics node = .ok metrics) :
    metrics.GPU.Zone = foundOr (annotationsOf node) "location.fluidos.eu/region" (fun v => v) "" ∧
    metrics.GPU.Region = foundOr (annotationsOf node) "location.fluidos.eu/zone" (fun v => v) "" ∧
    metrics.GPU.Provider =
      foundOr (annotationsOf node) "provider.fluidos.eu/name" (fun v => v) "" ∧
    metrics.GPU.Vendor = foundOr (annotationsOf node) "gpu.fluidos.eu/vendor" (fun v => v) "" ∧
    metrics.GPU.Model = foundOr (annotationsOf node) "gpu.fluidos.eu/model" (fun v => v) "" ∧
    metrics.GPU.Tier = foundOr (annotationsOf node) "gpu.fluidos.eu/tier" (fun v => v) "" ∧
    metrics.GPU.Architecture =
      foundOr (annotationsOf node) "gpu.fluidos.eu/architecture" (fun v => v) "" ∧
    metrics.GPU.ComputeCapability =
      foundOr (annotationsOf node) "gpu.fluidos.eu/compute-capability" (fun v => v) "" ∧
    metrics.GPU.SharingStrategy =
      foundOr (annotationsOf node) "gpu.fluidos.eu/sharing-strategy" (fun v => v) "" ∧
    metrics.GPU.Interconnect =
      foundOr (annotationsOf node) "gpu.fluidos.eu/interconnect" (fun v => v) "" ∧
    metrics.GPU.Topology = foundOr (annotationsOf node) "gpu.fluidos.eu/topology" (fun v => v) "" ∧
    metrics.GPU.MultiGPUEfficiency =
      foundOr (annotationsOf node) "gpu.fluidos.eu/multi-gpu-efficiency" (fun v => v) "" ∧
    metrics.GPU.NetworkTier =
      foundOr (annotationsOf node) "network.fluidos.eu/tier" (fun v => v) "" := by
  obtain ⟨mem, ib, cores, clock, nb, rfl⟩ := forgeResourceMetrics_ok_inv _ _ _ _ h
  exact ⟨rfl, rfl, rfl, rfl, rfl, rfl, rfl, rfl, rfl, rfl, rfl, rfl, rfl⟩

/-- C13, evaluated at a node with the zone `eu-west-1a` and the region `eu-west`: the metrics
returned have the value of the region key in `Zone` and the value of the zone key in
`Region`. -/
theorem location_keys_swapped :
    ∃ metrics, forgeResourceMetrics sampleParsers sampleMetrics
        (sampleNode (some (locationEntries "eu-west-1a" "eu-west"))) = .ok metrics ∧
      metrics.GPU.Zone = "eu-west" ∧ metrics.GPU.Region = "eu-west-1a" ∧
      metrics.GPU.Zone ≠ "eu-west-1a" ∧ metrics.GPU.Region ≠ "eu-west" :=
  ⟨resourceMetricsOf sampleMetrics (sampleNode none) { Zone := "eu-west", Region := "eu-west-1a" },
    by decide, rfl, rfl, by decide, by decide⟩
/-! ## Creation baseline and partitionability -/

theorem existingPayload_object_none (r : NodeReconciler) (nodeIdentity : NodeIdentity) :
    existingPayload r (createOrUpdateFlavor.object r none nodeIdentity) = .ok {} := rfl

/-- C14: creation baseline. When no existing record is supplied, every record the merge
returns has the price of the static configuration, availability true, the network-property
type `networkProperty`, a location, the type tag `K8Slice` and the node identity's `NodeID` as
provider id, and its payload is the serialization of a payload whose CPU, memory and pods
characteristics are the `CPUAvailable`, `MemoryAvailable` and `PodsAvailable` of the `NodeInfo`
and whose storage characteristic is its `EphemeralStorage`; and the merge does return a record
whenever its serialization and owner-reference steps succeed. -/
theorem merge_creation_baseline (r : NodeReconciler) (nodeInfo : NodeInfo)
    (nodeIdentity : NodeIdentity) (owner : Node) :
    (∀ merged,
      createOrUpdateFlavor.merge r none nodeInfo nodeIdentity owner = .ok merged →
      merged.Spec.Price =
        { Amount := r.flags.AMOUNT, Currency := r.flags.CURRENCY, Period := r.flags.PERIOD } ∧
      merged.Spec.Availability = true ∧
      merged.Spec.NetworkPropertyType = "networkProperty" ∧
      merged.Spec.Location.isSome = true ∧
      merged.Spec.FlavorType.TypeIdentifier = "K8Slice" ∧
      merged.Spec.ProviderID = nodeIdentity.NodeID ∧
      ∃ payload,
        r.Marshal payload = .ok merged.Spec.FlavorType.TypeData.Raw ∧
        payload.Characteristics.CPU = nodeInfo.ResourceMetrics.CPUAvailable ∧
        payload.Characteristics.Memory = nodeInfo.ResourceMetrics.MemoryAvailable ∧
        payload.Characteristics.Pods = nodeInfo.ResourceMetrics.PodsAvailable ∧
        payload.Characteristics.Storage = some nodeInfo.ResourceMetrics.EphemeralStorage) ∧
    (∀ raw gvk, r.Marshal (mergedPayload r true nodeInfo {}) = .ok raw →
      r.GVKForObject owner = .ok gvk →
      ∃ merged, createOrUpdateFlavor.merge r none nodeInfo nodeIdentity owner = .ok merged) := by
  constructor
  · intro merged hmerged
    obtain ⟨k, raw, gvk, hk, hraw, -, rfl⟩ := merge_ok_inv _ _ _ _ _ _ hmerged
    rw [existingPayload_object_none] at hk
    injection hk with hk
    subst hk
    exact ⟨rfl, rfl, rfl, rfl, rfl, rfl, mergedPayload r true nodeInfo {}, hraw, rfl, rfl, rfl,
      rfl⟩
  · intro raw gvk hmarshal hkind
    exact ⟨_, merge_of_steps r none nodeInfo nodeIdentity owner {} raw gvk
      (existingPayload_object_none r nodeIdentity) hmarshal hkind⟩

/-- Witness of C14: the offer created for the sample `NodeInfo` has the configured price and a
payload with the available capacity of the `NodeInfo`. -/
theorem merge_creation_baseline_witness :
    ∃ merged,
      createOrUpdateFlavor.merge (sampleReconciler (sampleNode none) sampleMetrics []) none
        sampleNodeInfo sampleIdentity (sampleNode none) = .ok merged ∧
      merged.Spec.Price = { Amount := "10", Currency := "EUR", Period := "hourly" } ∧
      merged.Spec.Availability = true ∧
      ∃ payload,
        sampleMarshal payload = .ok merged.Spec.FlavorType.TypeData.Raw ∧
        payload.Characteristics.CPU = ⟨3000000000⟩ ∧
        payload.Characteristics.Storage = some ⟨2000000000⟩ := by
  have h := merge_creation_baseline (sampleReconciler (sampleNode none) sampleMetrics [])
    sampleNodeInfo sampleIdentity (sampleNode none)
  obtain ⟨merged, hmerged⟩ := h.2 [123, 125] { Group := "", Version := "v1", Kind := "Node" }
    rfl rfl
  obtain ⟨hprice, havail, -, -, -, -, payload, hpayload, hcpu, -, -, hstorage⟩ :=
    h.1 merged hmerged
  exact ⟨merged, hmerged, hprice, havail, payload, hpayload, hcpu, hstorage⟩

/-- C15: partitionability refresh. For every existing or absent record and every `NodeInfo`,
every record the merge returns has as payload the serialization of a payload whose six
partitionability quantities are the values `ParseQuantityFromString` gives for the static
configuration flags, whatever the `NodeInfo` and the existing record hold; and the merge does
return a record whenever its decoding, serialization and owner-reference steps succeed. -/
theorem merge_refreshes_partitionability (r : NodeReconciler) (existing : Option Flavor)
    (nodeInfo : NodeInfo) (nodeIdentity : NodeIdentity) (owner : Node) :
    (∀ merged,
      createOrUpdateFlavor.merge r existing nodeInfo nodeIdentity owner = .ok merged →
      ∃ payload,
        r.Marshal payload = .ok merged.Spec.FlavorType.TypeData.Raw ∧
        payload.Policies.Partitionability.CPUMin = r.ParseQuantityFromString r.flags.CPUMin ∧
        payload.Policies.Partitionability.MemoryMin =
          r.ParseQuantityFromString r.flags.MemoryMin ∧
        payload.Policies.Partitionability.PodsMin = r.ParseQuantityFromString r.flags.PodsMin ∧
        payload.Policies.Partitionability.CPUStep = r.ParseQuantityFromString r.flags.CPUStep ∧
        payload.Policies.Partitionability.MemoryStep =
          r.ParseQuantityFromString r.flags.MemoryStep ∧
        payload.Policies.Partitionability.PodsStep =
          r.ParseQuantityFromString r.flags.PodsStep) ∧
    (∀ k raw gvk,
      existingPayload r (createOrUpdateFlavor.object r existing nodeIdentity) = .ok k →
      r.Marshal (mergedPayload r existing.isNone nodeInfo k) = .ok raw →
      r.GVKForObject owner = .ok gvk →
      ∃ merged,
        createOrUpdateFlavor.merge r existing nodeInfo nodeIdentity owner = .ok merged) := by
  constructor
  · intro merged hmerged
    obtain ⟨k, raw, gvk, -, hraw, -, rfl⟩ := merge_ok_inv _ _ _ _ _ _ hmerged
    exact ⟨mergedPayload r existing.isNone nodeInfo k, hraw, rfl, rfl, rfl, rfl, rfl, rfl⟩
  · intro k raw gvk hdecode hmarshal hkind
    exact ⟨_, merge_of_steps r existing nodeInfo nodeIdentity owner k raw gvk hdecode hmarshal
      hkind⟩

/-- Witness of C15: merging the sample `NodeInfo` of another capacity into an existing offer
gives a payload with the configured partitionability. -/
theorem merge_refreshes_partitionability_witness :
    ∃ merged,
      createOrUpdateFlavor.merge (sampleReconciler (sampleNode none) sampleMetrics [])
        (some (sampleFlavor "offer-a" [123, 125])) sampleNodeInfoLater sampleIdentity
        (sampleNode none) = .ok merged ∧
      ∃ payload,
        sampleMarshal payload = .ok merged.Spec.FlavorType.TypeData.Raw ∧
        payload.Policies.Partitionability.CPUMin = ⟨1000000000⟩ ∧
        payload.Policies.Partitionability.PodsStep = ⟨1000000000⟩ := by
  have h := merge_refreshes_partitionability
    (sampleReconciler (sampleNode none) sampleMetrics [])
    (some (sampleFlavor "offer-a" [123, 125])) sampleNodeInfoLater sampleIdentity
    (sampleNode none)
  obtain ⟨merged, hmerged⟩ := h.2 samplePayload [123, 125]
    { Group := "", Version := "v1", Kind := "Node" } (by decide) rfl rfl
  obtain ⟨payload, hpayload, hcpu, -, -, -, -, hpods⟩ := h.1 merged hmerged
  exact ⟨merged, hmerged, payload, hpayload, hcpu, hpods⟩

end Fluidos
